import Mathlib

/-!
Verification of the OVRlay overlay composition and interaction engine
(`OverlayManager` in `src/OVRlay/OVRlay.cpp`), shallowly embedded in Lean.

Numeric conventions: the float arithmetic of the source is modelled over `ℚ`.
Library routines whose exact value is irrational (Euclidean length,
yaw/pitch/roll extraction and recomposition, ray/triangle intersection,
UV projection — all of which live in LibOVR `OVR_Math.h` / DirectXMath,
not in this repository) are kept as parameters collected in `GeomFns`;
the engine's own arithmetic around them is embedded concretely.

Float NaN (which the external configurator writes into a freshly imported
slot's pose, see `syncState` in the ShellApp source) is modelled by the
`isNan` flag of `NanPose`: `ℚ` has no NaN value, so the flag carries the
"this pose is undefined" information that `OVR::Posef::IsNan()` tests.
-/

namespace OVRlay

/-- Three-component float vector (`ovrVector3f` / `shared::Vector3`). -/
structure Vec3 where
  x : ℚ
  y : ℚ
  z : ℚ
deriving DecidableEq

/-- Quaternion (`ovrQuatf` / `shared::Quaternion`), fields in the source's x,y,z,w order. -/
structure Quat where
  x : ℚ
  y : ℚ
  z : ℚ
  w : ℚ
deriving DecidableEq

/-- Rigid pose (`ovrPosef` / `OVR::Posef`): orientation quaternion plus position. -/
structure Pose where
  orientation : Quat
  position : Vec3
deriving DecidableEq

/-- A pose as stored in floats, together with the information whether it is NaN.
`OVR::Posef::IsNan()` is true exactly when some component is NaN; over `ℚ` we carry
that bit explicitly and none of the rational arithmetic can introduce it. -/
structure NanPose where
  isNan : Bool
  val : Pose
deriving DecidableEq

def Vec3.add (a b : Vec3) : Vec3 := ⟨a.x + b.x, a.y + b.y, a.z + b.z⟩

def Vec3.sub (a b : Vec3) : Vec3 := ⟨a.x - b.x, a.y - b.y, a.z - b.z⟩

def Vec3.neg (a : Vec3) : Vec3 := ⟨-a.x, -a.y, -a.z⟩

instance : Add Vec3 := ⟨Vec3.add⟩

instance : Sub Vec3 := ⟨Vec3.sub⟩

instance : Neg Vec3 := ⟨Vec3.neg⟩

/-- Hamilton product of quaternions (`OVR::Quatf::operator*` component formula). -/
def qmul (a b : Quat) : Quat :=
  ⟨a.w * b.x + a.x * b.w + a.y * b.z - a.z * b.y,
   a.w * b.y - a.x * b.z + a.y * b.w + a.z * b.x,
   a.w * b.z + a.x * b.y - a.y * b.x + a.z * b.w,
   a.w * b.w - a.x * b.x - a.y * b.y - a.z * b.z⟩

/-- Quaternion conjugate; `OVR::Quatf::Inverted()` for the unit quaternions the engine uses. -/
def qconj (q : Quat) : Quat := ⟨-q.x, -q.y, -q.z, q.w⟩

/-- Rotate a vector by a (unit) quaternion: the vector part of `q ⊗ (0,v) ⊗ q*`
(`OVR::Quatf::Rotate`). -/
def qrotate (q : Quat) (v : Vec3) : Vec3 :=
  let p := qmul (qmul q ⟨v.x, v.y, v.z, 0⟩) (qconj q)
  ⟨p.x, p.y, p.z⟩

/-- Identity quaternion (`OVR::Quatf::Identity()`). -/
def idQuat : Quat := ⟨0, 0, 0, 1⟩

/-- Identity pose (`OVR::Posef::Identity()`). -/
def idPose : Pose := ⟨idQuat, ⟨0, 0, 0⟩⟩

/-- Apply a pose to a point: `OVR::Posef::Apply` / `Transform`:
rotate by the orientation, then translate. -/
def Pose.apply (p : Pose) (v : Vec3) : Vec3 := qrotate p.orientation v + p.position

/-- Pose composition `a * b` of `OVR::Posef::operator*`.  LibOVR composes so that
the LEFT operand's transform is applied first: `(a * b).Apply v = b.Apply (a.Apply v)`.
This is the convention the repository relies on: `HandleInteractions` computes the
aim pose in view space as `aimPoseInLocalSpace * headPose.Inverted()`, and
`OpenWindow` spawns a fresh window at `front * m_lastHeadPose` — both are correct
only under left-applied-first composition. -/
def posMul (a b : Pose) : Pose :=
  ⟨qmul b.orientation a.orientation, b.apply a.position⟩

/-- Pose inverse (`OVR::Posef::Inverted()`): conjugate orientation,
negated-and-back-rotated translation. -/
def poseInv (p : Pose) : Pose :=
  let qi := qconj p.orientation
  ⟨qi, qrotate qi (-p.position)⟩

/-- Clamp (`std::clamp`). -/
def clampQ (v lo hi : ℚ) : ℚ := max lo (min v hi)

/-!
The external math routines of LibOVR / DirectXMath used by the engine produce
irrational values (square roots, inverse trigonometry), so they are collected
here as parameters.  Every claim theorem quantifies over them, adding only the
constraints that the real routines satisfy.
-/

/-- The external geometry routines called by `OverlayManager`, kept parametric
(see the module comment). The engine-side arithmetic around each call site is
embedded concretely. -/
structure GeomFns where
  /-- `OVR::Vector3f::Length()` (Euclidean norm). -/
  len : Vec3 → ℚ
  /-- Orientation part of `geom::alignToGravity`: `GetYawPitchRoll` followed by
  `RotationRollPitchYaw({pitch, yaw, 0})` (OVRlay.cpp:332-337). -/
  alignQ : Quat → Quat
  /-- Orientation part of `geom::facingCamera(pose, headPose)` (OVRlay.cpp:339-353):
  look-to matrix from the quad position towards `position - headPosition`, inverted;
  the position row of the result equals the input position, so only the orientation
  is parametric. Arguments: quad position, head position. -/
  faceQ : Vec3 → Vec3 → Quat
  /-- `geom::hitTest(aimPose, quadCenter, quadSize, hitPose)` (OVRlay.cpp:388-413):
  `some hitPose` when the aim ray intersects the quad, else `none`. -/
  hitTest : Pose → Pose → ℚ × ℚ → Option Pose
  /-- The thumbstick rotate of `HandleWindowInteractions` (OVRlay.cpp:1008-1014):
  extract yaw/pitch/roll, add the thumbstick deflection scaled by `2π/360`,
  recompose with roll 0. Arguments: current orientation, thumbstick (x, y). -/
  rotAdjust : Quat → ℚ × ℚ → Quat
  /-- `geom::getUVCoordinates` POINT overload (OVRlay.cpp:438-444): hit point to
  pixel coordinates. Arguments: point, quad center pose, quad size, pixel size. -/
  uvPix : Vec3 → Pose → ℚ × ℚ → ℕ × ℕ → ℤ × ℤ

/-- Roll-freeness of a quaternion, in the sense of the engine's Euler convention:
`OVR::Quatf::GetYawPitchRoll` (axes Y,X,Z) computes the roll as
`atan2(2*(w*z + x*y), w² + y² - x² - z²)` away from the gimbal-lock branches,
so roll `0` means the numerator vanishes and the denominator is non-negative. -/
def RollFree (q : Quat) : Prop :=
  q.w * q.z + q.x * q.y = 0 ∧ 0 ≤ q.w ^ 2 + q.y ^ 2 - q.x ^ 2 - q.z ^ 2

instance (q : Quat) : Decidable (RollFree q) := by
  unfold RollFree
  infer_instance

/-- The quaternion produced by `XMQuaternionRotationRollPitchYaw(pitch, yaw, roll)`,
written in terms of the half-angle sines/cosines `sp,cp` (pitch), `sy,cy` (yaw),
`sr,cr` (roll); fields in x,y,z,w order (DirectXMath scalar formula). -/
def rpyQuat (sp cp sy cy sr cr : ℚ) : Quat :=
  ⟨sp * cy * cr + cp * sy * sr,
   cp * sy * cr - sp * cy * sr,
   cp * cy * sr - sp * sy * cr,
   cp * cy * cr + sp * sy * sr⟩

/-- Whatever yaw and pitch `geom::alignToGravity` extracts, recomposing them with
roll `0` yields a roll-free quaternion: the extracted pitch is an `asin` value in
`[-π/2, π/2]`, so its half-angle cosine dominates the half-angle sine
(`sp² ≤ cp²`), and the yaw half-angle obeys the Pythagorean identity.  This
justifies the `RollFree` constraint placed on `GeomFns.alignQ`. -/
theorem rpy_zero_roll_rollFree (sp cp sy cy : ℚ)
    (hy : sy ^ 2 + cy ^ 2 = 1) (hp : sp ^ 2 ≤ cp ^ 2) :
    RollFree (rpyQuat sp cp sy cy 0 1) := by
  constructor
  · simp only [rpyQuat]
    ring
  · simp only [rpyQuat]
    have h : (cp * cy * 1 + sp * sy * 0) ^ 2 + (cp * sy * 1 - sp * cy * 0) ^ 2 -
        (sp * cy * 1 + cp * sy * 0) ^ 2 - (cp * cy * 0 - sp * sy * 1) ^ 2 =
        (cp ^ 2 - sp ^ 2) * (sy ^ 2 + cy ^ 2) := by ring
    rw [h, hy, mul_one]
    linarith

/-!
Data model: the shared memory slot record, the engine-internal per-slot
`Window`, and the manager state (`OverlayManager`'s members).
-/

/-- One slot of the memory-mapped file (`shared::OverlayState`, OVRlay.cpp:495-505).
`handle` and `opacity`/`placement` bytes are kept as `ℕ`; a byte hypothesis is
added where a claim ranges over byte values. -/
structure OverlayState where
  handle : ℕ
  pose : NanPose
  scale : ℚ
  isMonitor : Bool
  opacity : ℕ
  placement : ℕ
  isInteractable : Bool
  isFrozen : Bool
  isMinimized : Bool
deriving DecidableEq

/-- `shared::OverlayCount`. -/
def OverlayCount : ℕ := 4

/-- `OverlayManager::MinimizedIconSize` (0.1f). -/
def MinimizedIconSize : ℚ := 1 / 10

/-- `WindowPlacement::WorldLocked` as stored in the placement byte. -/
def WorldLocked : ℕ := 0

/-- `WindowPlacement::HeadLocked` as stored in the placement byte. -/
def HeadLocked : ℕ := 1

/-- The fields of `ovrLayerQuad` the engine reads or writes: layer type
(`Header.Type`, quad vs. disabled), the head-locked header flag, the center
pose, the quad size in meters and the viewport size in pixels. -/
structure Quad where
  isQuadType : Bool
  headLocked : Bool
  poseCenter : NanPose
  sizeX : ℚ
  sizeY : ℚ
  viewportW : ℕ
  viewportH : ℕ
deriving DecidableEq

/-- The all-zero `ovrLayerQuad{}` (type `ovrLayerType_Disabled`, no flags). -/
def emptyQuad : Quad :=
  ⟨false, false, ⟨false, ⟨⟨0, 0, 0, 0⟩, ⟨0, 0, 0⟩⟩⟩, 0, 0, 0, 0⟩

/-- Engine-internal per-slot state (`OverlayManager::Window`, OVRlay.cpp:519-570).
`hasCapture` models the `captureWindow` unique pointer being non-null (a live
capture session); `hasSwapchain` models the `swapchain` handle being non-null. -/
structure Window where
  hwnd : ℕ
  monitor : ℕ
  hasCapture : Bool
  scale : ℚ
  opacity : ℚ
  placement : ℕ
  isInteractable : Bool
  isFrozen : Bool
  isMinimized : Bool
  hasFocus : Bool
  hasSwapchain : Bool
  swapchainW : ℕ
  swapchainH : ℕ
  quad : Quad
deriving DecidableEq

/-- A default-constructed `Window` (the member initializers at OVRlay.cpp:545-565). -/
def emptyWindow : Window :=
  { hwnd := 0, monitor := 0, hasCapture := false, scale := 1, opacity := 1,
    placement := WorldLocked, isInteractable := true, isFrozen := false,
    isMinimized := false, hasFocus := false, hasSwapchain := false,
    swapchainW := 0, swapchainH := 0, quad := emptyQuad }

/-- `Window::Clear` (OVRlay.cpp:530-539): disable the layer, drop the capture
session, drop the shared swapchain images and destroy the swapchain. -/
def Window.clear (w : Window) : Window :=
  { w with quad := { w.quad with isQuadType := false }, hasCapture := false,
           hasSwapchain := false }

/-- `Window::IsValid` (OVRlay.cpp:541-543): the layer type is quad and the
capture session is live. -/
def Window.IsValid (w : Window) : Bool :=
  w.quad.isQuadType && w.hasCapture

/-- A layer descriptor as emitted by `GetLayers`: either a window's quad
(`&m_windows[index].quad.Header`) or the cursor quad (`&m_cursorQuad.Header`). -/
inductive Layer where
  | window (slot : Fin 4) (quad : Quad)
  | cursor (quad : Quad)
deriving DecidableEq

/-- Whether a layer is the cursor layer. -/
def Layer.isCursor : Layer → Bool
  | .cursor _ => true
  | .window _ _ => false

/-- The slot of a window layer. -/
def Layer.slot? : Layer → Option (Fin 4)
  | .window s _ => some s
  | .cursor _ => none

/-- The state of `OverlayManager` relevant to its per-frame behaviour
(member list at OVRlay.cpp:1353-1389). `mapped` is `m_overlayState != nullptr`;
`shared` is the content of the mapped file. -/
structure ManagerState where
  mapped : Bool
  shared : Fin 4 → OverlayState
  windows : Fin 4 → Window
  sortedWindows : List (Fin 4)
  cursorQuad : Quad
  lastHeadPose : Pose
  lastSideToInteract : Fin 2
  lastControllerPoses : Fin 2 → Pose
  cursorPose : Option Pose
  lastCursorPosition : Vec3
  windowHovered : Fin 4
  isTriggerPressed : Bool
  isThumbstickPressed : Bool
  isDraggingWindow : Bool
  isResizingWindow : Bool
  fenceValue : ℕ

/-- The per-frame inputs the engine polls: tracking state
(`ovr_GetTrackingState`), button state (`ovr_GetInputState`), the capture
provider's current size and latest surface per slot, and the DWM frame bounds
per slot. -/
structure FrameInput where
  headPose : Pose
  aimValid : Fin 2 → Bool
  aimPose : Fin 2 → Pose
  thumbButton : Fin 2 → Bool
  handTrigger : Fin 2 → ℚ
  indexTrigger : Fin 2 → ℚ
  thumbstick : Fin 2 → ℚ × ℚ
  captureSize : Fin 4 → ℕ × ℕ
  surface : Fin 4 → Option (ℕ × ℕ)
  frameBounds : Fin 4 → ℕ × ℕ

/-- The state right after the `OverlayManager` constructor (OVRlay.cpp:573-589):
everything default-initialized; `mapped` records whether the shared-state
region was opened and mapped. -/
def initState (mapped : Bool) (shared : Fin 4 → OverlayState) : ManagerState :=
  { mapped := mapped, shared := shared, windows := fun _ => emptyWindow,
    sortedWindows := [], cursorQuad := emptyQuad, lastHeadPose := idPose,
    lastSideToInteract := 0, lastControllerPoses := fun _ => idPose,
    cursorPose := none, lastCursorPosition := ⟨0, 0, 0⟩, windowHovered := 0,
    isTriggerPressed := false, isThumbstickPressed := false,
    isDraggingWindow := false, isResizingWindow := false, fenceValue := 0 }

/-- Replace one window in the manager state. -/
def setWindow (st : ManagerState) (i : Fin 4) (w : Window) : ManagerState :=
  { st with windows := Function.update st.windows i w }

/-- Replace one shared slot in the manager state. -/
def setShared (st : ManagerState) (i : Fin 4) (s : OverlayState) : ManagerState :=
  { st with shared := Function.update st.shared i s }

/-!
Window lifecycle: `OpenWindow`, `CloseWindow`, `SyncWindow`
(OVRlay.cpp:1264-1351).
-/

/-- The engine-internal opacity computed from the shared byte:
`state.opacity / 100.f` (OVRlay.cpp:1290 and 1340). -/
def opacityOf (b : ℕ) : ℚ := (b : ℚ) / 100

/-- The window produced by `OverlayManager::OpenWindow` (OVRlay.cpp:1265-1321)
from the shared slot record, the previous window object and the last head
pose: pull the slot state, start the capture session, initialize the quad from
the shared pose, and if that pose is NaN spawn the window in front of the user
(world-locked: one meter in front of the last head pose, gravity aligned;
head-locked: directly ahead). -/
def openedWindow (geo : GeomFns) (state : OverlayState) (w : Window)
    (lastHeadPose : Pose) : Window :=
  let w := if !state.isMonitor then { w with hwnd := state.handle, monitor := 0 }
           else { w with monitor := state.handle, hwnd := 0 }
  if w.hwnd = 0 ∧ w.monitor = 0 then w
  else
    let w := { w with
      quad := { w.quad with isQuadType := true, poseCenter := state.pose },
      hasCapture := true,
      scale := state.scale,
      opacity := opacityOf state.opacity,
      placement := state.placement,
      isInteractable := state.isInteractable,
      isFrozen := state.isFrozen,
      isMinimized := state.isMinimized,
      swapchainW := 0, swapchainH := 0,
      hasSwapchain := false,
      hasFocus := false }
    if state.pose.isNan then
      let front : Pose := ⟨idQuat, ⟨0, 0, -1⟩⟩
      if w.placement = WorldLocked then
        let p := posMul front lastHeadPose
        { w with quad := { w.quad with
            poseCenter := ⟨false, ⟨geo.alignQ p.orientation, p.position⟩⟩ } }
      else if w.placement = HeadLocked then
        { w with quad := { w.quad with poseCenter := ⟨false, front⟩ } }
      else
        { w with quad := { w.quad with poseCenter := ⟨false, idPose⟩ } }
    else w

/-- `OverlayManager::OpenWindow` as a state transition on the manager. -/
def OpenWindow (geo : GeomFns) (st : ManagerState) (slot : Fin 4) : ManagerState :=
  setWindow st slot
    (openedWindow geo (st.shared slot) (st.windows slot) st.lastHeadPose)

/-- `OverlayManager::CloseWindow` (OVRlay.cpp:1347-1351): `window.Clear()`. -/
def CloseWindow (st : ManagerState) (slot : Fin 4) : ManagerState :=
  setWindow st slot (st.windows slot).clear

/-- The shared-slot record after the push half of `SyncWindow`
(OVRlay.cpp:1328-1337): pose, scale and minimized state come from the engine. -/
def syncedShared (state : OverlayState) (w : Window) : OverlayState :=
  { state with pose := w.quad.poseCenter, scale := w.scale,
               isMinimized := w.isMinimized }

/-- The window after the pull half of `SyncWindow` (OVRlay.cpp:1339-1344):
opacity, placement, interactable and frozen come from the shared record. -/
def syncedWindow (state : OverlayState) (w : Window) : Window :=
  { w with opacity := opacityOf state.opacity,
           placement := state.placement,
           isInteractable := state.isInteractable,
           isFrozen := state.isFrozen }

/-- `OverlayManager::SyncWindow` (OVRlay.cpp:1324-1344): push pose, scale and
minimized state to the shared slot; pull opacity, placement, interactable and
frozen from it. -/
def SyncWindow (st : ManagerState) (slot : Fin 4) : ManagerState :=
  let state := syncedShared (st.shared slot) (st.windows slot)
  setWindow (setShared st slot state) slot (syncedWindow state (st.windows slot))

/-!
Sorting (`OverlayManager::SortWindows`, OVRlay.cpp:829-861).  The source calls
`std::sort` with the comparator `a.first > b.first`.  The C++ standard only
guarantees that the result is a permutation ordered by the comparator — the
relative order of elements with equal keys is unspecified; `IsSortOutcome`
captures exactly that contract.  The executable model uses `sortDesc`, an
insertion sort by the same comparator — one valid refinement of `std::sort`
(`sortDesc_isSortOutcome` below).  No claim relies on where `sortDesc` places
equal keys, since `std::sort` leaves exactly that unspecified.
-/

/-- Insert an entry into a list ordered by strictly decreasing key (entries
with an equal key are passed over, i.e. the new entry lands after them). -/
def insertDesc {α : Type} (p : ℚ × α) : List (ℚ × α) → List (ℚ × α)
  | [] => [p]
  | q :: t => if p.1 > q.1 then p :: q :: t else q :: insertDesc p t

/-- Insertion sort by strictly decreasing key: a deterministic refinement of
the `std::sort(..., a.first > b.first)` call in `SortWindows`. -/
def sortDesc {α : Type} : List (ℚ × α) → List (ℚ × α)
  | [] => []
  | p :: t => insertDesc p (sortDesc t)

/-- The contract of `std::sort(distances, a.first > b.first)`: the output is a
permutation of the input whose keys are non-increasing. Nothing more is
guaranteed; in particular the order of equal-key entries is unspecified. -/
def IsSortOutcome {α : Type} [DecidableEq α] (inp out : List (ℚ × α)) : Prop :=
  inp.Perm out ∧ out.Pairwise (fun a b => a.1 ≥ b.1)

instance {α : Type} [DecidableEq α] (inp out : List (ℚ × α)) :
    Decidable (IsSortOutcome inp out) := by
  unfold IsSortOutcome
  infer_instance

theorem insertDesc_perm {α : Type} (p : ℚ × α) (l : List (ℚ × α)) :
    (insertDesc p l).Perm (p :: l) := by
  induction l with
  | nil => simp [insertDesc]
  | cons q t ih =>
    simp only [insertDesc]
    by_cases h : p.1 > q.1
    · simp [h]
    · rw [if_neg h]
      exact (List.Perm.cons q ih).trans (List.Perm.swap p q t)

theorem sortDesc_perm {α : Type} (l : List (ℚ × α)) : (sortDesc l).Perm l := by
  induction l with
  | nil => simp [sortDesc]
  | cons p t ih =>
    simp only [sortDesc]
    exact (insertDesc_perm p (sortDesc t)).trans (List.Perm.cons p ih)

theorem insertDesc_sorted {α : Type} (p : ℚ × α) (l : List (ℚ × α))
    (h : l.Pairwise (fun a b => a.1 ≥ b.1)) :
    (insertDesc p l).Pairwise (fun a b => a.1 ≥ b.1) := by
  induction l with
  | nil => simp [insertDesc]
  | cons q t ih =>
    simp only [insertDesc]
    rcases List.pairwise_cons.mp h with ⟨hq, ht⟩
    by_cases hpq : p.1 > q.1
    · rw [if_pos hpq]
      refine List.pairwise_cons.mpr ⟨?_, h⟩
      intro b hb
      rcases List.mem_cons.mp hb with hb | hb
      · subst hb
        exact le_of_lt hpq
      · exact le_trans (hq b hb) (le_of_lt hpq)
    · rw [if_neg hpq]
      refine List.pairwise_cons.mpr ⟨?_, ih ht⟩
      intro b hb
      have hb' := (insertDesc_perm p t).mem_iff.mp hb
      rcases List.mem_cons.mp hb' with hb'' | hb''
      · subst hb''
        exact le_of_not_lt hpq
      · exact hq b hb''

theorem sortDesc_sorted {α : Type} (l : List (ℚ × α)) :
    (sortDesc l).Pairwise (fun a b => a.1 ≥ b.1) := by
  induction l with
  | nil => simp [sortDesc]
  | cons p t ih => exact insertDesc_sorted p (sortDesc t) ih

theorem sortDesc_isSortOutcome {α : Type} [DecidableEq α] (l : List (ℚ × α)) :
    IsSortOutcome l (sortDesc l) :=
  ⟨(sortDesc_perm l).symm, sortDesc_sorted l⟩

/-- With pairwise-distinct keys, any two outcomes the `std::sort` contract
allows coincide: the key order forced by the comparator is total. -/
theorem isSortOutcome_unique {α : Type} [DecidableEq α]
    (inp out₁ out₂ : List (ℚ × α))
    (hnd : (inp.map Prod.fst).Nodup)
    (h₁ : IsSortOutcome inp out₁) (h₂ : IsSortOutcome inp out₂) :
    out₁ = out₂ := by
  have key : ∀ out : List (ℚ × α), IsSortOutcome inp out →
      out.Pairwise (fun a b => b.1 < a.1 ∨ a = b) := by
    intro out hout
    have hmap : (out.map Prod.fst).Nodup := ((hout.1.map Prod.fst).nodup_iff).mp hnd
    have hnd' : out.Pairwise (fun a b => a.1 ≠ b.1) :=
      (List.pairwise_map).mp hmap
    exact (hout.2.and hnd').imp fun h => Or.inl (lt_of_le_of_ne h.1 (Ne.symm h.2))
  have hperm : out₁.Perm out₂ := h₁.1.symm.trans h₂.1
  haveI : IsAntisymm (ℚ × α) (fun a b => b.1 < a.1 ∨ a = b) := by
    constructor
    intro a b hab hba
    rcases hab with hab | hab
    · rcases hba with hba | hba
      · exact absurd (hab.trans hba) (lt_irrefl _)
      · exact hba.symm
    · exact hab
  exact List.eq_of_perm_of_sorted hperm (key out₁ h₁) (key out₂ h₂)

/-- With pairwise-distinct keys, every outcome the `std::sort` contract allows
has strictly decreasing keys. -/
theorem isSortOutcome_strict {α : Type} [DecidableEq α]
    (inp out : List (ℚ × α)) (hnd : (inp.map Prod.fst).Nodup)
    (h : IsSortOutcome inp out) :
    out.Pairwise (fun a b => b.1 < a.1) := by
  have hmap : (out.map Prod.fst).Nodup := ((h.1.map Prod.fst).nodup_iff).mp hnd
  have hnd' : out.Pairwise (fun a b => a.1 ≠ b.1) := (List.pairwise_map).mp hmap
  exact (h.2.and hnd').imp fun hh => lt_of_le_of_ne hh.1 (Ne.symm hh.2)

/-- The slot indices, in slot order (the `for (uint32_t i = 0; ...)` loops). -/
def slotList : List (Fin 4) := [0, 1, 2, 3]

/-- The body of the `SortWindows` slot loop (OVRlay.cpp:830-851): detect slot
add/remove (open/close the window) and accumulate the `(distance, index)`
pairs of the remaining valid windows, using the distance from
`m_lastHeadPose`. -/
def sortPass (geo : GeomFns) :
    List (Fin 4) → ManagerState → List (ℚ × Fin 4) → ManagerState × List (ℚ × Fin 4)
  | [], st, acc => (st, acc)
  | i :: rest, st, acc =>
    if !(st.windows i).IsValid then
      if (st.shared i).handle = 0 then sortPass geo rest st acc
      else
        let st' := OpenWindow geo st i
        let key := geo.len
          ((st'.windows i).quad.poseCenter.val.position - st'.lastHeadPose.position)
        sortPass geo rest st' (acc ++ [(key, i)])
    else
      if (st.shared i).handle = 0 then sortPass geo rest (CloseWindow st i) acc
      else
        let key := geo.len
          ((st.windows i).quad.poseCenter.val.position - st.lastHeadPose.position)
        sortPass geo rest st (acc ++ [(key, i)])

/-- `OverlayManager::SortWindows` (OVRlay.cpp:829-861): run the slot loop, sort
the distance pairs from back to front and store the index order. -/
def SortWindows (geo : GeomFns) (st : ManagerState) : ManagerState :=
  let r := sortPass geo slotList st []
  { r.1 with sortedWindows := (sortDesc r.2).map Prod.snd }

/-!
Interaction state machine (`HandleInteractions` / `HandleWindowInteractions`,
OVRlay.cpp:863-1099).
-/

/-- The other hand (`side ^= 1`). -/
def otherSide (s : Fin 2) : Fin 2 := if s = 0 then 1 else 0

/-- The four edge-detection latches `m_isTriggerPressed`,
`m_isThumbstickPressed`, `m_isDraggingWindow`, `m_isResizingWindow`. -/
structure Latches where
  isTriggerPressed : Bool
  isThumbstickPressed : Bool
  isDraggingWindow : Bool
  isResizingWindow : Bool
deriving DecidableEq

/-- Read the latches out of the manager state. -/
def ManagerState.latches (st : ManagerState) : Latches :=
  ⟨st.isTriggerPressed, st.isThumbstickPressed, st.isDraggingWindow,
   st.isResizingWindow⟩

/-- Write the latches back into the manager state. -/
def setLatches (st : ManagerState) (lt : Latches) : ManagerState :=
  { st with isTriggerPressed := lt.isTriggerPressed,
            isThumbstickPressed := lt.isThumbstickPressed,
            isDraggingWindow := lt.isDraggingWindow,
            isResizingWindow := lt.isResizingWindow }

/-- Apply `geom::alignToGravity` to a stored quad pose: only the orientation
changes (recomposed from yaw and pitch with roll removed). -/
def alignToGravityNP (geo : GeomFns) (p : NanPose) : NanPose :=
  ⟨p.isNan, ⟨geo.alignQ p.val.orientation, p.val.position⟩⟩

/-- Apply `geom::facingCamera` to a stored quad pose: only the orientation
changes (look-to from the position towards the head), the position stays. -/
def facingCameraNP (geo : GeomFns) (p : NanPose) (headPose : Pose) : NanPose :=
  ⟨p.isNan, ⟨geo.faceQ p.val.position headPose.position, p.val.position⟩⟩

/-- The cursor/click tail of `HandleWindowInteractions` (OVRlay.cpp:1046-1098):
for an interactable, non-minimized window, map the hit to pixel coordinates;
inside the bounds, update the trigger latch and on a rising edge of the index
trigger take focus (the OS cursor/focus/click injection itself is a
fire-and-forget side effect outside the model). -/
def hwiInteract (geo : GeomFns) (inp : FrameInput) (side : Fin 2) (hitPose : Pose)
    (sizeInPixels : ℕ × ℕ) (w : Window) (lt : Latches) : Window × Latches :=
  let clickThreshold : ℚ := 3 / 4
  let isInteractable := !w.isMinimized && w.isInteractable
  if isInteractable then
    let cursorPosition := geo.uvPix hitPose.position w.quad.poseCenter.val
      (w.quad.sizeX, w.quad.sizeY) sizeInPixels
    if 0 < cursorPosition.1 ∧ cursorPosition.1 < (sizeInPixels.1 : ℤ) ∧
        0 < cursorPosition.2 ∧ cursorPosition.2 < (sizeInPixels.2 : ℤ) then
      let wasTriggerPressed := lt.isTriggerPressed
      let nowTrigger := decide (inp.indexTrigger side > clickThreshold)
      let lt := { lt with isTriggerPressed := nowTrigger }
      if nowTrigger && !wasTriggerPressed then
        ({ w with hasFocus := true }, lt)
      else (w, lt)
    else (w, lt)
  else (w, lt)

/-- `OverlayManager::HandleWindowInteractions` (OVRlay.cpp:952-1099): the
grab/rotate/resize/minimize state machine for the window hit this frame,
followed by the cursor/click tail `hwiInteract`. -/
def HandleWindowInteractions (geo : GeomFns) (inp : FrameInput) (side : Fin 2)
    (headPose : Pose) (controllerPoses : Fin 2 → Pose) (hitPose : Pose)
    (sizeInPixels : ℕ × ℕ) (lastCursorPosition : Vec3)
    (lastControllerPoses : Fin 2 → Pose) (lastHeadPose : Pose)
    (w : Window) (lt : Latches) : Window × Latches :=
  let clickThreshold : ℚ := 3 / 4
  let isDraggingWindow := lt.isDraggingWindow
  let isResizingWindow := lt.isResizingWindow
  let lt := { lt with isDraggingWindow := false, isResizingWindow := false }
  if !w.isFrozen then
    let wasThumbstickPressed := lt.isThumbstickPressed
    let nowThumb := inp.thumbButton side
    let lt := { lt with isThumbstickPressed := nowThumb }
    if !w.isMinimized && decide (inp.handTrigger side > clickThreshold) then
      if inp.handTrigger (otherSide side) ≤ clickThreshold then
        let wlt :=
          if nowThumb && !wasThumbstickPressed then
            -- Reorient the window to face the camera.
            ({ w with quad := { w.quad with
                poseCenter := facingCameraNP geo w.quad.poseCenter headPose } }, lt)
          else if decide (inp.indexTrigger side > clickThreshold) then
            -- One handed grab: drag the window.
            let w :=
              if isDraggingWindow then
                let delta := hitPose.position - lastCursorPosition
                let sensitivity : ℚ := 1 / 4
                let lastDistance := geo.len
                  (lastHeadPose.position - (lastControllerPoses side).position)
                let distance := geo.len
                  (headPose.position - (controllerPoses side).position)
                let delta := delta + qrotate w.quad.poseCenter.val.orientation
                  ⟨0, 0, (lastDistance - distance) * sensitivity⟩
                let delta : Vec3 := ⟨clampQ delta.x (-(1/50)) (1/50),
                  clampQ delta.y (-(1/50)) (1/50), clampQ delta.z (-(1/100)) (1/100)⟩
                let newPosition := w.quad.poseCenter.val.position + delta
                let maxDistance : ℚ := 10
                if geo.len (newPosition - headPose.position) < maxDistance then
                  { w with quad := { w.quad with poseCenter :=
                      ⟨w.quad.poseCenter.isNan,
                       ⟨w.quad.poseCenter.val.orientation, newPosition⟩⟩ } }
                else w
              else w
            (w, { lt with isDraggingWindow := true })
          else
            -- Rotate by the thumbstick deflection.
            ({ w with quad := { w.quad with poseCenter :=
                ⟨w.quad.poseCenter.isNan,
                 ⟨geo.rotAdjust w.quad.poseCenter.val.orientation (inp.thumbstick side),
                  w.quad.poseCenter.val.position⟩⟩ } }, lt)
        ({ wlt.1 with quad := { wlt.1.quad with
            poseCenter := alignToGravityNP geo wlt.1.quad.poseCenter } }, wlt.2)
      else
        -- Two handed grab: resize.
        let w :=
          if isResizingWindow then
            let lastLength := geo.len
              ((lastControllerPoses 0).position - (lastControllerPoses 1).position)
            let currentLength := geo.len
              ((controllerPoses 0).position - (controllerPoses 1).position)
            { w with scale := w.scale + (currentLength - lastLength) }
          else w
        (w, { lt with isResizingWindow := true })
    else if nowThumb && !wasThumbstickPressed then
      let w := { w with isMinimized := !w.isMinimized }
      let w :=
        if !w.isMinimized then
          let w := { w with quad := { w.quad with
            poseCenter := facingCameraNP geo w.quad.poseCenter headPose } }
          { w with quad := { w.quad with
            poseCenter := alignToGravityNP geo w.quad.poseCenter } }
        else w
      (w, lt)
    else
      hwiInteract geo inp side hitPose sizeInPixels w lt
  else
    hwiInteract geo inp side hitPose sizeInPixels w lt

/-- The hit-testing loop of `HandleInteractions` (OVRlay.cpp:885-942), walking
the sorted windows front to back (reverse of `m_sortedWindows`) until a hand's
aim ray hits a window's quad enlarged by the 50px margin.  On the first hit the
window's interactions are handled, the cursor pose and interacting side are
latched and the walk stops; windows visited without a hit lose their focus
flag.  The returned index is the window hit this frame (a specification
observation — the source code keeps no such record). -/
def hitScan (geo : GeomFns) (inp : FrameInput) (headPose : Pose)
    (aimLocal aimView : Fin 2 → Option Pose) :
    List (Fin 4) → ManagerState → ManagerState × Option (Fin 4)
  | [], st => (st, none)
  | i :: rest, st =>
    let w := st.windows i
    let margin : ℚ := 50
    let sizeInPixels := inp.captureSize i
    let ppmX := (sizeInPixels.1 : ℚ) / w.quad.sizeX
    let ppmY := (sizeInPixels.2 : ℚ) / w.quad.sizeY
    let hitSize : ℚ × ℚ := (((sizeInPixels.1 : ℚ) + margin * 2) / ppmX,
                            ((sizeInPixels.2 : ℚ) + margin * 2) / ppmY)
    let tryHit : Fin 2 → Option Pose := fun side =>
      match aimLocal side with
      | none => none
      | some aim =>
        let aimPose := if w.placement = WorldLocked then aim
                       else if w.placement = HeadLocked then (aimView side).getD idPose
                       else idPose
        geo.hitTest aimPose w.quad.poseCenter.val hitSize
    let side0 := st.lastSideToInteract
    let chosen : Option (Fin 2 × Pose) :=
      match tryHit side0 with
      | some hp => some (side0, hp)
      | none =>
        match tryHit (otherSide side0) with
        | some hp => some (otherSide side0, hp)
        | none => none
    match chosen with
    | some sideHit =>
      let controllerPoses : Fin 2 → Pose := fun s => (aimLocal s).getD idPose
      let r := HandleWindowInteractions geo inp sideHit.1 headPose controllerPoses
        sideHit.2 sizeInPixels st.lastCursorPosition st.lastControllerPoses
        st.lastHeadPose w st.latches
      let st := setLatches (setWindow st i r.1) r.2
      let st := { st with
        cursorPose := some ⟨r.1.quad.poseCenter.val.orientation, sideHit.2.position⟩,
        lastSideToInteract := sideHit.1 }
      (st, some i)
    | none =>
      hitScan geo inp headPose aimLocal aimView rest
        (setWindow st i { w with hasFocus := false })

/-- `OverlayManager::HandleInteractions` (OVRlay.cpp:864-950): sample tracking,
build the per-hand aim poses in local and view space, reset the cursor, run the
hit-testing walk, then latch the controller poses and the head pose. -/
def HandleInteractions (geo : GeomFns) (inp : FrameInput) (st : ManagerState) :
    ManagerState × Option (Fin 4) :=
  let headPose := inp.headPose
  let aimLocal : Fin 2 → Option Pose := fun s =>
    if inp.aimValid s then some (inp.aimPose s) else none
  let aimView : Fin 2 → Option Pose := fun s =>
    (aimLocal s).map fun p => posMul p (poseInv headPose)
  let st := { st with
    lastCursorPosition := (st.cursorPose.map Pose.position).getD ⟨0, 0, 0⟩,
    cursorPose := none }
  let r := hitScan geo inp headPose aimLocal aimView st.sortedWindows.reverse st
  let st := r.1
  let st := { st with
    lastControllerPoses := fun s =>
      match aimLocal s with
      | some p => p
      | none => st.lastControllerPoses s,
    lastHeadPose := headPose }
  (st, r.2)

/-!
Compositing and per-frame content refresh (`UpdateWindows`,
OVRlay.cpp:1102-1262), the transparency shader contract, the frame commit and
the layer emission.
-/

/-- The GPU work issued for one window's surface: either the plain
`CopySubresourceRegion` (OVRlay.cpp:1181) or a compute dispatch of the
transparency shader with the constants written at OVRlay.cpp:1207-1220. -/
inductive CompositeAction where
  | copy
  | dispatch (transparentColor : ℚ × ℚ × ℚ) (alpha : ℚ) (groupsX groupsY : ℕ)
deriving DecidableEq

/-- Thread groups dispatched per dimension (OVRlay.cpp:1218-1219):
`(unsigned int)std::ceil(windowSurfaceDesc.Width / 8)`.  `Width / 8` is
integer division (UINT by int), so the `std::ceil` is applied to an already
truncated integral value and is the identity: the group count is `dim / 8`
rounded DOWN. -/
def dispatchGroups (dim : ℕ) : ℕ := dim / 8

/-- The per-pixel contract of `TransparencyShaderHlsl` (OVRlay.cpp:450-468):
output rgb equals input rgb; output alpha is `Alpha` when color keying is
disabled by the `(-1,-1,-1)` sentinel or the pixel matches the transparent
color, else `1`. -/
def shaderPixel (transparentColor : ℚ × ℚ × ℚ) (alpha : ℚ) (rgb : ℚ × ℚ × ℚ) :
    (ℚ × ℚ × ℚ) × ℚ :=
  let a : ℚ := if transparentColor = (-1, -1, -1) ∨ rgb = transparentColor
               then alpha else 1
  (rgb, a)

/-- Group size of the transparency shader (`[numthreads(32, 32, 1)]`). -/
def threadGroupSize : ℕ := 32

/-- One iteration of the `UpdateWindows` loop (OVRlay.cpp:1103-1261) for a
single window: skip invalid windows and windows with no captured surface this
frame; (re)create the swapchain when the captured size changed; choose the
copy or transparency-dispatch path from the window opacity (threshold
`0.9999f`, always passing the `(-1,-1,-1)` color-key sentinel); set viewport
from the DWM frame bounds; set the quad size (the fixed minimized icon size
when minimized, else the scale and aspect); maintain the head-locked header
flag; billboard minimized world-locked windows. -/
def UpdateWindow1 (geo : GeomFns) (surface : Option (ℕ × ℕ)) (bounds : ℕ × ℕ)
    (lastHeadPose : Pose) (w : Window) : Window × Option CompositeAction :=
  if !w.IsValid then (w, none) else
  match surface with
  | none => (w, none)
  | some desc =>
    let w := if !w.hasSwapchain || w.swapchainW ≠ desc.1 || w.swapchainH ≠ desc.2
      then { w with hasSwapchain := true, swapchainW := desc.1, swapchainH := desc.2 }
      else w
    let action : CompositeAction :=
      if w.opacity ≥ 9999 / 10000 then .copy
      else .dispatch (-1, -1, -1) w.opacity (dispatchGroups desc.1) (dispatchGroups desc.2)
    let w := { w with quad := { w.quad with viewportW := bounds.1, viewportH := bounds.2 } }
    let w :=
      if !w.isMinimized then
        { w with quad :=
          { w.quad with
            sizeX := w.scale,
            sizeY := w.scale * (w.quad.viewportH : ℚ) / (w.quad.viewportW : ℚ) } }
      else
        { w with quad :=
          { w.quad with
            sizeX := MinimizedIconSize,
            sizeY := MinimizedIconSize } }
    let w := { w with quad := { w.quad with
        headLocked := decide (w.placement = HeadLocked) } }
    let w :=
      if w.isMinimized && !decide (w.placement = HeadLocked) then
        { w with quad :=
          { w.quad with
            poseCenter :=
              alignToGravityNP geo
                (facingCameraNP geo w.quad.poseCenter lastHeadPose) } }
      else w
    (w, some action)

/-- One iteration of the `UpdateWindows` loop as a state transition. -/
def updateStep (geo : GeomFns) (inp : FrameInput) (st : ManagerState)
    (i : Fin 4) : ManagerState :=
  setWindow st i
    (UpdateWindow1 geo (inp.surface i) (inp.frameBounds i) st.lastHeadPose
      (st.windows i)).1

/-- `OverlayManager::UpdateWindows` (OVRlay.cpp:1102-1262): run `UpdateWindow1`
over every slot (the GPU actions themselves are fire-and-forget). -/
def UpdateWindows (geo : GeomFns) (inp : FrameInput) (st : ManagerState) :
    ManagerState :=
  slotList.foldl (updateStep geo inp) st

/-- One iteration of the commit loop as a state transition. -/
def commitStep (st : ManagerState) (i : Fin 4) : ManagerState :=
  if (st.windows i).IsValid then SyncWindow st i else st

/-- The commit loop at the end of `Update` (OVRlay.cpp:648-660): for every
valid window, synchronize with the shared slot (the swapchain commit itself is
GPU work guarded by `window.swapchain`). -/
def commitAll (st : ManagerState) : ManagerState :=
  slotList.foldl commitStep st

/-- `OverlayManager::Update` (OVRlay.cpp:633-661), also returning the
specification observation of which window the hit-testing walk hit. The
no-shared-state guard returns immediately; otherwise sort, interact, refresh
content, advance the serialization fence and commit. -/
def UpdateWithHit (geo : GeomFns) (inp : FrameInput) (st : ManagerState) :
    ManagerState × Option (Fin 4) :=
  if !st.mapped then (st, none) else
  let st := SortWindows geo st
  let r := HandleInteractions geo inp st
  let st := UpdateWindows geo inp r.1
  let st := { st with fenceValue := st.fenceValue + 1 }
  (commitAll st, r.2)

/-- `OverlayManager::Update` proper. -/
def Update (geo : GeomFns) (inp : FrameInput) (st : ManagerState) : ManagerState :=
  (UpdateWithHit geo inp st).1

/-- `OverlayManager::GetLayers` (OVRlay.cpp:663-687): emit every sorted
window's quad header in order, then, when a cursor pose exists, position the
cursor quad, derive its head-locked flag from `m_windows[m_windowHovered]`
(the source never assigns `m_windowHovered`) and append it. Returns the layer
list and the state (the cursor quad is mutated in place). -/
def GetLayers (st : ManagerState) : List Layer × ManagerState :=
  let ls := st.sortedWindows.map fun i => Layer.window i (st.windows i).quad
  match st.cursorPose with
  | none => (ls, st)
  | some cp =>
    let cq := st.cursorQuad
    let cq := { cq with
      poseCenter := ⟨false, ⟨cp.orientation,
        ⟨cp.position.x + cq.sizeX / 2, cp.position.y - cq.sizeY / 2,
         cp.position.z⟩⟩⟩,
      headLocked := decide ((st.windows st.windowHovered).placement = HeadLocked) }
    (ls ++ [Layer.cursor cq], { st with cursorQuad := cq })

/-- `OverlayManager::HasFocus` (OVRlay.cpp:689-691). -/
def HasFocus (st : ManagerState) : Bool := st.cursorPose.isSome

/-- The cursor quad as set up by `InitializeCompositionResources`
(OVRlay.cpp:777-815): a 32×32 static image on a 0.01m square quad. -/
def cursorQuadInit : Quad :=
  { emptyQuad with isQuadType := true, sizeX := 1 / 100, sizeY := 1 / 100,
                   viewportW := 32, viewportH := 32 }

/-- `OverlayManager::SetSubmissionSession` (OVRlay.cpp:605-631): guarded by the
no-shared-state check; re-initializes (clears) every window and rebuilds the
composition resources including the cursor quad. -/
def SetSubmissionSession (st : ManagerState) : ManagerState :=
  if !st.mapped then st else
  { st with windows := fun i => (st.windows i).clear,
            cursorQuad := cursorQuadInit }

/-- The public entry points of the engine (OVRlay.cpp:1418-1448):
`Initialize` forwards to `SetSubmissionSession`; the exported `GetLayers`
performs `Update` then `GetLayers`; `HasFocus` is read-only. -/
inductive Call where
  | setSession
  | update (geo : GeomFns) (inp : FrameInput)
  | getLayers
  | hasFocus

/-- State transition of one entry-point call. -/
def step : Call → ManagerState → ManagerState
  | .setSession, st => SetSubmissionSession st
  | .update geo inp, st => Update geo inp st
  | .getLayers, st => (GetLayers st).2
  | .hasFocus, st => st

/-- Run a sequence of entry-point calls. -/
def run : List Call → ManagerState → ManagerState
  | [], st => st
  | c :: cs, st => run cs (step c st)

/-!
Projection and preservation lemmas used by the claim proofs.
-/

@[simp] theorem setWindow_windows_self (st : ManagerState) (i : Fin 4) (w : Window) :
    (setWindow st i w).windows i = w := by
  simp [setWindow]

theorem setWindow_windows_ne (st : ManagerState) (i : Fin 4) (w : Window)
    (j : Fin 4) (h : j ≠ i) : (setWindow st i w).windows j = st.windows j := by
  simp [setWindow, Function.update_noteq h]

@[simp] theorem setWindow_shared (st : ManagerState) (i : Fin 4) (w : Window) :
    (setWindow st i w).shared = st.shared := rfl

@[simp] theorem setWindow_lastHeadPose (st : ManagerState) (i : Fin 4) (w : Window) :
    (setWindow st i w).lastHeadPose = st.lastHeadPose := rfl

@[simp] theorem setWindow_sortedWindows (st : ManagerState) (i : Fin 4) (w : Window) :
    (setWindow st i w).sortedWindows = st.sortedWindows := rfl

@[simp] theorem setWindow_cursorPose (st : ManagerState) (i : Fin 4) (w : Window) :
    (setWindow st i w).cursorPose = st.cursorPose := rfl

@[simp] theorem setLatches_windows (st : ManagerState) (lt : Latches) :
    (setLatches st lt).windows = st.windows := rfl

@[simp] theorem setLatches_sortedWindows (st : ManagerState) (lt : Latches) :
    (setLatches st lt).sortedWindows = st.sortedWindows := rfl

@[simp] theorem setShared_windows (st : ManagerState) (i : Fin 4) (s : OverlayState) :
    (setShared st i s).windows = st.windows := rfl

@[simp] theorem setShared_sortedWindows (st : ManagerState) (i : Fin 4) (s : OverlayState) :
    (setShared st i s).sortedWindows = st.sortedWindows := rfl

@[simp] theorem setShared_lastHeadPose (st : ManagerState) (i : Fin 4) (s : OverlayState) :
    (setShared st i s).lastHeadPose = st.lastHeadPose := rfl

theorem qmul_idQuat (q : Quat) : qmul q idQuat = q := by
  cases q
  simp [qmul, idQuat]

/-- A window opened from a non-empty slot is valid: the layer type is quad and
the capture session is live, on every branch of `openedWindow`. -/
theorem openedWindow_IsValid (geo : GeomFns) (state : OverlayState) (w : Window)
    (lhp : Pose) (h : state.handle ≠ 0) :
    (openedWindow geo state w lhp).IsValid = true := by
  unfold openedWindow
  by_cases hm : state.isMonitor <;>
    simp [hm, h, Window.IsValid] <;> split_ifs <;> simp [Window.IsValid]

/-- `openedWindow` keeps the shared slot's minimized flag on every branch. -/
theorem openedWindow_isMinimized (geo : GeomFns) (state : OverlayState)
    (w : Window) (lhp : Pose) (h : state.handle ≠ 0) :
    (openedWindow geo state w lhp).isMinimized = state.isMinimized := by
  unfold openedWindow
  by_cases hm : state.isMonitor <;>
    simp [hm, h] <;> split_ifs <;> simp

/-- The pose a world-locked slot with a NaN shared pose is opened with: the
head-relative default `front * lastHeadPose`, gravity aligned, not NaN. -/
theorem openedWindow_nan_world (geo : GeomFns) (state : OverlayState)
    (w : Window) (lhp : Pose) (h : state.handle ≠ 0)
    (hn : state.pose.isNan = true) (hp : state.placement = WorldLocked) :
    (openedWindow geo state w lhp).quad.poseCenter =
      ⟨false, ⟨geo.alignQ (posMul ⟨idQuat, ⟨0, 0, -1⟩⟩ lhp).orientation,
               (posMul ⟨idQuat, ⟨0, 0, -1⟩⟩ lhp).position⟩⟩ := by
  unfold openedWindow
  by_cases hm : state.isMonitor <;>
    simp [hm, h, hn, hp]

/-- `HandleWindowInteractions` never touches the capture session or the layer
type: validity is preserved on every branch. -/
theorem hwi_IsValid (geo : GeomFns) (inp : FrameInput) (side : Fin 2)
    (headPose : Pose) (cps : Fin 2 → Pose) (hitPose : Pose) (sizePx : ℕ × ℕ)
    (lcp : Vec3) (lcps : Fin 2 → Pose) (lhp : Pose) (w : Window) (lt : Latches) :
    ((HandleWindowInteractions geo inp side headPose cps hitPose sizePx lcp
      lcps lhp w lt).1).IsValid = w.IsValid := by
  simp only [HandleWindowInteractions, hwiInteract]
  repeat' split <;> try rfl

/-- `HandleWindowInteractions` never changes the frozen flag (only `SyncWindow`
pulls it from the shared state). -/
theorem hwi_isFrozen (geo : GeomFns) (inp : FrameInput) (side : Fin 2)
    (headPose : Pose) (cps : Fin 2 → Pose) (hitPose : Pose) (sizePx : ℕ × ℕ)
    (lcp : Vec3) (lcps : Fin 2 → Pose) (lhp : Pose) (w : Window) (lt : Latches) :
    ((HandleWindowInteractions geo inp side headPose cps hitPose sizePx lcp
      lcps lhp w lt).1).isFrozen = w.isFrozen := by
  simp only [HandleWindowInteractions, hwiInteract]
  repeat' split <;> try rfl

/-- `UpdateWindow1` never touches the capture session or the layer type. -/
theorem updateWindow1_IsValid (geo : GeomFns) (s : Option (ℕ × ℕ)) (b : ℕ × ℕ)
    (lhp : Pose) (w : Window) :
    ((UpdateWindow1 geo s b lhp w).1).IsValid = w.IsValid := by
  simp only [UpdateWindow1]
  repeat' split <;> try rfl

/-- For a window that is not minimized, `UpdateWindow1` leaves the quad pose
unchanged (the billboard branch is only for minimized windows). -/
theorem updateWindow1_poseCenter (geo : GeomFns) (s : Option (ℕ × ℕ)) (b : ℕ × ℕ)
    (lhp : Pose) (w : Window) (hmin : w.isMinimized = false) :
    ((UpdateWindow1 geo s b lhp w).1).quad.poseCenter = w.quad.poseCenter := by
  simp only [UpdateWindow1]
  repeat' split <;> simp_all

/-- `UpdateWindow1` never changes the minimized flag. -/
theorem updateWindow1_isMinimized (geo : GeomFns) (s : Option (ℕ × ℕ)) (b : ℕ × ℕ)
    (lhp : Pose) (w : Window) :
    ((UpdateWindow1 geo s b lhp w).1).isMinimized = w.isMinimized := by
  simp only [UpdateWindow1]
  repeat' split <;> try rfl

@[simp] theorem syncedWindow_quad (state : OverlayState) (w : Window) :
    (syncedWindow state w).quad = w.quad := rfl

@[simp] theorem syncedWindow_IsValid (state : OverlayState) (w : Window) :
    (syncedWindow state w).IsValid = w.IsValid := rfl

@[simp] theorem syncedWindow_isMinimized (state : OverlayState) (w : Window) :
    (syncedWindow state w).isMinimized = w.isMinimized := rfl

/-- `sortPass` only touches the windows of the slots it visits. -/
theorem sortPass_windows_notin (geo : GeomFns) (s : Fin 4) :
    ∀ (l : List (Fin 4)) (st : ManagerState) (acc : List (ℚ × Fin 4)),
      s ∉ l → ((sortPass geo l st acc).1).windows s = st.windows s := by
  intro l
  induction l with
  | nil => intro st acc _; rfl
  | cons i rest ih =>
    intro st acc hs
    have hsi : s ≠ i := fun h => hs (h ▸ List.mem_cons_self i rest)
    have hsr : s ∉ rest := fun h => hs (List.mem_cons_of_mem i h)
    simp only [sortPass]
    by_cases hv : (st.windows i).IsValid <;> simp only [hv] <;>
      by_cases hh : (st.shared i).handle = 0 <;>
      simp only [hh, Bool.not_true, Bool.not_false, if_true, if_false,
        Bool.false_eq_true, Bool.true_eq_false, ite_true, ite_false] <;>
      first
        | exact ih st acc hsr
        | (rw [ih _ _ hsr]
           simp [OpenWindow, CloseWindow, setWindow_windows_ne _ _ _ _ hsi])
        | (rw [ih _ _ hsr])

/-- An invalid window on a non-empty slot is opened by the `SortWindows` pass,
from its original shared record, window object and last head pose. -/
theorem sortPass_windows_open (geo : GeomFns) (s : Fin 4) :
    ∀ (l : List (Fin 4)) (st : ManagerState) (acc : List (ℚ × Fin 4)),
      s ∈ l → l.Nodup →
      (st.windows s).IsValid = false → (st.shared s).handle ≠ 0 →
      ((sortPass geo l st acc).1).windows s =
        openedWindow geo (st.shared s) (st.windows s) st.lastHeadPose := by
  intro l
  induction l with
  | nil => intro st acc hs; exact absurd hs (List.not_mem_nil s)
  | cons i rest ih =>
    intro st acc hs hnd hv hh
    rcases List.nodup_cons.mp hnd with ⟨hir, hndr⟩
    by_cases hsi : s = i
    · subst hsi
      simp only [sortPass, hv, hh, Bool.not_false, if_true, if_false,
        Bool.false_eq_true, Bool.true_eq_false, ite_true, ite_false]
      rw [sortPass_windows_notin geo s rest _ _ hir]
      simp [OpenWindow]
    · have hsr : s ∈ rest := (List.mem_cons.mp hs).resolve_left hsi
      simp only [sortPass]
      by_cases hvi : (st.windows i).IsValid <;> simp only [hvi] <;>
        by_cases hhi : (st.shared i).handle = 0 <;>
        simp only [hhi, Bool.not_true, Bool.not_false, if_true, if_false,
          Bool.false_eq_true, Bool.true_eq_false, ite_true, ite_false] <;>
        rw [ih _ _ hsr hndr] <;>
        simp [OpenWindow, CloseWindow, setWindow_windows_ne _ _ _ _ hsi, hv, hh]

/-- Every window the `SortWindows` pass records a distance for is valid in the
state the pass produces. -/
theorem sortPass_acc_valid (geo : GeomFns) :
    ∀ (l : List (Fin 4)) (st : ManagerState) (acc : List (ℚ × Fin 4)),
      l.Nodup →
      (∀ p ∈ acc, (st.windows p.2).IsValid = true ∧ p.2 ∉ l) →
      ∀ p ∈ (sortPass geo l st acc).2,
        (((sortPass geo l st acc).1).windows p.2).IsValid = true := by
  intro l
  induction l with
  | nil =>
    intro st acc _ hacc p hp
    exact (hacc p hp).1
  | cons i rest ih =>
    intro st acc hnd hacc
    rcases List.nodup_cons.mp hnd with ⟨hir, hndr⟩
    have hini : ∀ p : ℚ × Fin 4, p ∈ acc → p.2 ≠ i :=
      fun p hp h => (hacc p hp).2 (h ▸ List.mem_cons_self i rest)
    have hinr : ∀ p : ℚ × Fin 4, p ∈ acc → p.2 ∉ rest :=
      fun p hp h => (hacc p hp).2 (List.mem_cons_of_mem i h)
    simp only [sortPass]
    by_cases hv : (st.windows i).IsValid <;> simp only [hv] <;>
      by_cases hh : (st.shared i).handle = 0 <;>
      simp only [hh, Bool.not_true, Bool.not_false, if_true, if_false,
        Bool.false_eq_true, Bool.true_eq_false, ite_true, ite_false]
    · refine ih (CloseWindow st i) acc hndr ?_
      intro p hp
      refine ⟨?_, hinr p hp⟩
      rw [show (CloseWindow st i).windows p.2 = st.windows p.2 by
        simp [CloseWindow, setWindow_windows_ne _ _ _ _ (hini p hp)]]
      exact (hacc p hp).1
    · refine ih st (acc ++ _) hndr ?_
      intro p hp
      rcases List.mem_append.mp hp with hp | hp
      · exact ⟨(hacc p hp).1, hinr p hp⟩
      · rcases List.mem_singleton.mp hp with rfl
        exact ⟨by simpa using hv, hir⟩
    · refine ih st acc hndr ?_
      intro p hp
      exact ⟨(hacc p hp).1, hinr p hp⟩
    · refine ih (OpenWindow geo st i) (acc ++ _) hndr ?_
      intro p hp
      rcases List.mem_append.mp hp with hp | hp
      · refine ⟨?_, hinr p hp⟩
        rw [show (OpenWindow geo st i).windows p.2 = st.windows p.2 by
          simp [OpenWindow, setWindow_windows_ne _ _ _ _ (hini p hp)]]
        exact (hacc p hp).1
      · rcases List.mem_singleton.mp hp with rfl
        refine ⟨?_, hir⟩
        simp only [OpenWindow, setWindow_windows_self]
        exact openedWindow_IsValid geo _ _ _ hh

/-- The hit-testing walk never changes the draw order. -/
theorem hitScan_sortedWindows (geo : GeomFns) (inp : FrameInput) (hp : Pose)
    (aL aV : Fin 2 → Option Pose) :
    ∀ (l : List (Fin 4)) (st : ManagerState),
      ((hitScan geo inp hp aL aV l st).1).sortedWindows = st.sortedWindows := by
  intro l
  induction l with
  | nil => intro st; rfl
  | cons i rest ih =>
    intro st
    simp only [hitScan]
    split
    · rfl
    · exact ih _

/-- The hit-testing walk preserves every window's validity. -/
theorem hitScan_IsValid (geo : GeomFns) (inp : FrameInput) (hp : Pose)
    (aL aV : Fin 2 → Option Pose) :
    ∀ (l : List (Fin 4)) (st : ManagerState) (j : Fin 4),
      (((hitScan geo inp hp aL aV l st).1).windows j).IsValid =
        ((st.windows j)).IsValid := by
  intro l
  induction l with
  | nil => intro st j; rfl
  | cons i rest ih =>
    intro st j
    simp only [hitScan]
    split
    · by_cases hj : j = i
      · subst hj
        show (((setWindow st j _).windows j)).IsValid = _
        rw [setWindow_windows_self]
        exact hwi_IsValid geo inp _ hp _ _ _ _ _ _ _ _
      · show (((setWindow st i _).windows j)).IsValid = _
        rw [setWindow_windows_ne _ _ _ _ hj]
    · rw [ih]
      by_cases hj : j = i
      · subst hj
        rw [setWindow_windows_self]
        rfl
      · rw [setWindow_windows_ne _ _ _ _ hj]

/-- With no tracked hand this frame, the hit-testing walk only clears focus
flags: quads and minimized state are untouched. -/
theorem hitScan_noAim (geo : GeomFns) (inp : FrameInput) (hp : Pose)
    (aL aV : Fin 2 → Option Pose) (haim : ∀ sd, aL sd = none) :
    ∀ (l : List (Fin 4)) (st : ManagerState) (j : Fin 4),
      (((hitScan geo inp hp aL aV l st).1).windows j).quad =
        (st.windows j).quad ∧
      (((hitScan geo inp hp aL aV l st).1).windows j).isMinimized =
        (st.windows j).isMinimized := by
  intro l
  induction l with
  | nil => intro st j; exact ⟨rfl, rfl⟩
  | cons i rest ih =>
    intro st j
    simp only [hitScan, haim]
    rcases ih (setWindow st i { st.windows i with hasFocus := false }) j with ⟨h1, h2⟩
    rw [h1, h2]
    by_cases hj : j = i
    · subst hj
      rw [setWindow_windows_self]
      exact ⟨rfl, rfl⟩
    · rw [setWindow_windows_ne _ _ _ _ hj]
      exact ⟨rfl, rfl⟩

/-- The `UpdateWindows` loop preserves every window's validity. -/
theorem updateFold_IsValid (geo : GeomFns) (inp : FrameInput) :
    ∀ (l : List (Fin 4)) (st : ManagerState) (j : Fin 4),
      ((List.foldl (updateStep geo inp) st l).windows j).IsValid =
        ((st.windows j)).IsValid := by
  intro l
  induction l with
  | nil => intro st j; rfl
  | cons i rest ih =>
    intro st j
    rw [List.foldl_cons, ih]
    by_cases hj : j = i
    · subst hj
      simp only [updateStep, setWindow_windows_self]
      exact updateWindow1_IsValid geo _ _ _ _
    · simp only [updateStep, setWindow_windows_ne _ _ _ _ hj]

/-- The `UpdateWindows` loop leaves a non-minimized window's quad pose alone. -/
theorem updateFold_poseCenter (geo : GeomFns) (inp : FrameInput) :
    ∀ (l : List (Fin 4)) (st : ManagerState) (j : Fin 4),
      (st.windows j).isMinimized = false →
      ((List.foldl (updateStep geo inp) st l).windows j).quad.poseCenter =
        (st.windows j).quad.poseCenter := by
  intro l
  induction l with
  | nil => intro st j _; rfl
  | cons i rest ih =>
    intro st j hmin
    rw [List.foldl_cons]
    by_cases hj : j = i
    · subst hj
      have hmin2 : ((updateStep geo inp st j).windows j).isMinimized = false := by
        simp only [updateStep, setWindow_windows_self, updateWindow1_isMinimized]
        exact hmin
      rw [ih _ j hmin2]
      simp only [updateStep, setWindow_windows_self]
      exact updateWindow1_poseCenter geo _ _ _ _ hmin
    · have hmin2 : ((updateStep geo inp st i).windows j).isMinimized = false := by
        simp only [updateStep, setWindow_windows_ne _ _ _ _ hj]
        exact hmin
      rw [ih _ j hmin2]
      simp only [updateStep, setWindow_windows_ne _ _ _ _ hj]

/-- The commit loop never changes a window's quad (it pushes the quad pose out
and pulls only opacity, placement, interactable and frozen). -/
theorem commitFold_quad :
    ∀ (l : List (Fin 4)) (st : ManagerState) (j : Fin 4),
      ((List.foldl commitStep st l).windows j).quad = (st.windows j).quad := by
  intro l
  induction l with
  | nil => intro st j; rfl
  | cons i rest ih =>
    intro st j
    rw [List.foldl_cons, ih]
    simp only [commitStep]
    split
    · by_cases hj : j = i
      · subst hj
        simp only [SyncWindow, setWindow_windows_self, syncedWindow_quad]
      · simp only [SyncWindow, setWindow_windows_ne _ _ _ _ hj, setShared_windows]
    · rfl

/-- The commit loop preserves every window's validity. -/
theorem commitFold_IsValid :
    ∀ (l : List (Fin 4)) (st : ManagerState) (j : Fin 4),
      ((List.foldl commitStep st l).windows j).IsValid = ((st.windows j)).IsValid := by
  intro l
  induction l with
  | nil => intro st j; rfl
  | cons i rest ih =>
    intro st j
    rw [List.foldl_cons, ih]
    simp only [commitStep]
    split
    · by_cases hj : j = i
      · subst hj
        simp only [SyncWindow, setWindow_windows_self, syncedWindow_IsValid]
      · simp only [SyncWindow, setWindow_windows_ne _ _ _ _ hj, setShared_windows]
    · rfl

/-- The `UpdateWindows` loop never changes the draw order. -/
theorem updateFold_sortedWindows (geo : GeomFns) (inp : FrameInput) :
    ∀ (l : List (Fin 4)) (st : ManagerState),
      (List.foldl (updateStep geo inp) st l).sortedWindows = st.sortedWindows := by
  intro l
  induction l with
  | nil => intro st; rfl
  | cons i rest ih =>
    intro st
    rw [List.foldl_cons, ih]
    rfl

/-- The commit loop never changes the draw order. -/
theorem commitFold_sortedWindows :
    ∀ (l : List (Fin 4)) (st : ManagerState),
      (List.foldl commitStep st l).sortedWindows = st.sortedWindows := by
  intro l
  induction l with
  | nil => intro st; rfl
  | cons i rest ih =>
    intro st
    rw [List.foldl_cons, ih]
    simp only [commitStep]
    split <;> rfl

/-- `HandleInteractions` never changes the draw order. -/
theorem handleInteractions_sortedWindows (geo : GeomFns) (inp : FrameInput)
    (st : ManagerState) :
    ((HandleInteractions geo inp st).1).sortedWindows = st.sortedWindows := by
  simp only [HandleInteractions]
  rw [hitScan_sortedWindows]

/-- `HandleInteractions` preserves every window's validity. -/
theorem handleInteractions_IsValid (geo : GeomFns) (inp : FrameInput)
    (st : ManagerState) (j : Fin 4) :
    (((HandleInteractions geo inp st).1).windows j).IsValid =
      ((st.windows j)).IsValid := by
  simp only [HandleInteractions]
  rw [hitScan_IsValid]

/-- With no tracked hand this frame, `HandleInteractions` only clears focus
flags: quads and minimized state are untouched. -/
theorem handleInteractions_noAim (geo : GeomFns) (inp : FrameInput)
    (st : ManagerState) (j : Fin 4) (hno : ∀ sd, inp.aimValid sd = false) :
    (((HandleInteractions geo inp st).1).windows j).quad = (st.windows j).quad ∧
    (((HandleInteractions geo inp st).1).windows j).isMinimized =
      (st.windows j).isMinimized := by
  simp only [HandleInteractions]
  exact hitScan_noAim geo inp inp.headPose _ _ (by intro sd; simp [hno sd]) _ _ j

/-- Every window whose index `Update` leaves in the draw order is valid in the
state `Update` produces. -/
theorem update_sorted_valid (geo : GeomFns) (inp : FrameInput) (st : ManagerState)
    (hm : st.mapped = true) (i : Fin 4)
    (hi : i ∈ (Update geo inp st).sortedWindows) :
    ((Update geo inp st).windows i).IsValid = true := by
  simp only [Update, UpdateWithHit, hm, Bool.not_true, Bool.false_eq_true,
    if_false, ite_false, commitAll, UpdateWindows] at hi ⊢
  rw [commitFold_IsValid]
  rw [commitFold_sortedWindows] at hi
  dsimp only at hi ⊢
  rw [updateFold_IsValid]
  rw [updateFold_sortedWindows] at hi
  rw [handleInteractions_IsValid]
  rw [handleInteractions_sortedWindows] at hi
  simp only [SortWindows] at hi ⊢
  rcases List.mem_map.mp hi with ⟨p, hp, hpi⟩
  have hpd : p ∈ (sortPass geo slotList st []).2 := (sortDesc_perm _).mem_iff.mp hp
  have hv := sortPass_acc_valid geo slotList st [] (by decide)
    (by intro q hq; exact absurd hq (List.not_mem_nil q)) p hpd
  rw [← hpi]
  exact hv

/-- A window layer in the `GetLayers` output comes from the draw order. -/
theorem getLayers_window_mem (st : ManagerState) (i : Fin 4) (q : Quad)
    (h : Layer.window i q ∈ (GetLayers st).1) : i ∈ st.sortedWindows := by
  unfold GetLayers at h
  split at h
  · rcases List.mem_map.mp h with ⟨j, hj, heq⟩
    cases heq
    exact hj
  · rcases List.mem_append.mp h with h | h
    · rcases List.mem_map.mp h with ⟨j, hj, heq⟩
      cases heq
      exact hj
    · exact absurd (List.mem_singleton.mp h) (by simp)

/-!
Shared concrete fixtures for the claim witnesses and counterexamples.
-/

/-- A trivial instantiation of the external geometry routines. -/
def zeroGeo : GeomFns :=
  { len := fun _ => 0, alignQ := fun _ => idQuat, faceQ := fun _ _ => idQuat,
    hitTest := fun _ _ _ => none, rotAdjust := fun q _ => q,
    uvPix := fun _ _ _ _ => (0, 0) }

/-- A frame with no tracked hands, no buttons, and no captured surface. -/
def noHandsInput : FrameInput :=
  { headPose := idPose, aimValid := fun _ => false, aimPose := fun _ => idPose,
    thumbButton := fun _ => false, handTrigger := fun _ => 0,
    indexTrigger := fun _ => 0, thumbstick := fun _ => (0, 0),
    captureSize := fun _ => (100, 100), surface := fun _ => none,
    frameBounds := fun _ => (100, 100) }

/-- An occupied shared slot with a finite identity pose. -/
def occupiedSlot : OverlayState :=
  { handle := 1, pose := ⟨false, idPose⟩, scale := 1, isMonitor := false,
    opacity := 100, placement := WorldLocked, isInteractable := true,
    isFrozen := false, isMinimized := false }

/-- An empty shared slot. -/
def vacantSlot : OverlayState := { occupiedSlot with handle := 0 }

/-- A manager that mapped the shared region and sees one occupied slot. -/
def oneSlotState : ManagerState :=
  initState true (fun i => if i = 0 then occupiedSlot else vacantSlot)

/-- A valid engine window (quad layer type set, live capture session). -/
def validWindow : Window :=
  { emptyWindow with
    hasCapture := true,
    quad := { emptyQuad with isQuadType := true } }

/-- All edge-detection latches clear. -/
def clearLatches : Latches := ⟨false, false, false, false⟩

/-!
Claim theorems.
-/

/-- C1 counterexample: in the very `Update` frame that opens a window whose
capture has not yet produced a surface, `GetLayers` emits that window's quad
although its swapchain is still null — the claim that emission requires a
valid swapchain is false on the code. -/
theorem c1_counterexample :
    ((GetLayers (Update zeroGeo noHandsInput oneSlotState)).1.map Layer.slot?)
      = [some 0] ∧
    ((Update zeroGeo noHandsInput oneSlotState).windows 0).hasCapture = true ∧
    ((Update zeroGeo noHandsInput oneSlotState).windows 0).hasSwapchain = false := by
  decide

/-- C1 (amended): a window's quad is included in the layer list emitted after
an `Update` only if the window is valid — it has a live capture session and
its layer type is quad.  (A non-null swapchain is NOT required: only the
swapchain commit is conditional on it.) -/
theorem c1_layer_requires_valid_capture (geo : GeomFns) (inp : FrameInput)
    (st : ManagerState) (hm : st.mapped = true) (i : Fin 4) (q : Quad)
    (hin : Layer.window i q ∈ (GetLayers (Update geo inp st)).1) :
    ((Update geo inp st).windows i).IsValid = true :=
  update_sorted_valid geo inp st hm i
    (getLayers_window_mem (Update geo inp st) i q hin)

/-- C1 witness: the amended theorem applied to the one-slot fixture. -/
theorem c1_witness :
    oneSlotState.mapped = true ∧
    Layer.window 0 ((Update zeroGeo noHandsInput oneSlotState).windows 0).quad ∈
      (GetLayers (Update zeroGeo noHandsInput oneSlotState)).1 ∧
    ((Update zeroGeo noHandsInput oneSlotState).windows 0).IsValid = true :=
  ⟨rfl, by decide,
   c1_layer_requires_valid_capture zeroGeo noHandsInput oneSlotState rfl 0
     ((Update zeroGeo noHandsInput oneSlotState).windows 0).quad (by decide)⟩

/-- C2: when the shared-state region could not be opened or mapped, every
sequence of entry-point calls (`SetSubmissionSession`/`Initialize`, `Update`,
`GetLayers`, `HasFocus`) leaves the engine state untouched, and the engine
emits no layers and reports no focus: it is a no-op producing no overlays. -/
theorem c2_unmapped_noop (sh : Fin 4 → OverlayState) (cs : List Call) :
    run cs (initState false sh) = initState false sh ∧
    (GetLayers (initState false sh)).1 = [] ∧
    HasFocus (initState false sh) = false := by
  refine ⟨?_, rfl, rfl⟩
  induction cs with
  | nil => rfl
  | cons c rest ih => cases c <;> exact ih

section ClaimEval

attribute [local semireducible] Rat.add Rat.sub Rat.mul Rat.inv Rat.ofScientific

/-- The head-locked flag of the cursor layer, if this layer is the cursor. -/
def cursorHeadLock : Layer → Option Bool
  | .cursor q => some q.headLocked
  | .window _ _ => none

/-- Geometry for the hovered-window scenario: distance read off the negated z
coordinate; the aim ray hits exactly the quad centered at z = -2. -/
def c3Geo : GeomFns :=
  { zeroGeo with
    len := fun v => -v.z,
    hitTest := fun _ c _ => if c.position.z = -2 then some idPose else none }

/-- One tracked hand (the left), no buttons. -/
def c3Input : FrameInput := { noHandsInput with aimValid := fun s => s = 0 }

/-- An occupied slot at depth `z` with the given placement byte. -/
def slotAt (z : ℚ) (placement : ℕ) : OverlayState :=
  { occupiedSlot with pose := ⟨false, ⟨idQuat, ⟨0, 0, z⟩⟩⟩, placement := placement }

/-- Two occupied slots: slot 0 world-locked at 5m, slot 1 head-locked at 2m
(the closer window, hence the one the front-to-back walk hits). -/
def twoSlotState : ManagerState :=
  initState true (fun i =>
    if i = 0 then slotAt (-5) WorldLocked
    else if i = 1 then slotAt (-2) HeadLocked
    else vacantSlot)

/-- C3: the window hovered this frame is slot 1, whose placement is
HeadLocked, yet the emitted cursor layer does NOT carry the head-locked flag:
`GetLayers` reads `m_windows[m_windowHovered].placement`, and `m_windowHovered`
is never assigned anywhere in the source — it stays 0, so the cursor flag
tracks slot 0 (here world-locked) instead of the hovered window. -/
theorem c3_cursor_headlock_uses_slot0 :
    (UpdateWithHit c3Geo c3Input twoSlotState).2 = some 1 ∧
    ((Update c3Geo c3Input twoSlotState).windows 1).placement = HeadLocked ∧
    (Update c3Geo c3Input twoSlotState).windowHovered = 0 ∧
    ((Update c3Geo c3Input twoSlotState).windows 0).placement = WorldLocked ∧
    ((GetLayers (Update c3Geo c3Input twoSlotState)).1.filterMap cursorHeadLock)
      = [false] := by
  decide

/-- C4 counterexample: with two windows at EQUAL distance (keys both 1, slots
0 and 1), the `std::sort` contract admits the outcome `[(1,1),(1,0)]`, which
violates slot-index order: the source's `std::sort` is not a stable sort, so
the tie-break half of the claim is not guaranteed by the code. -/
theorem c4_counterexample :
    IsSortOutcome [((1 : ℚ), (0 : Fin 4)), (1, 1)] [(1, 1), (1, 0)] ∧
    [((1 : ℚ), (1 : Fin 4)), (1, 0)].map Prod.snd ≠ [0, 1] := by
  decide

/-- C4 (amended): when the distance keys collected by the `SortWindows` pass
are pairwise distinct, the emitted draw order is the unique strictly
back-to-front (strictly decreasing distance) arrangement, and every outcome
the `std::sort` contract allows coincides with it.  The order of equal-distance
windows is unspecified (`std::sort` is not stable). -/
theorem c4_sorted_strict_desc (geo : GeomFns) (st : ManagerState)
    (hnd : (((sortPass geo slotList st []).2).map Prod.fst).Nodup) :
    (SortWindows geo st).sortedWindows =
      (sortDesc ((sortPass geo slotList st []).2)).map Prod.snd ∧
    ((sortDesc ((sortPass geo slotList st []).2)).map Prod.fst).Pairwise (· > ·) ∧
    ∀ out, IsSortOutcome ((sortPass geo slotList st []).2) out →
      out = sortDesc ((sortPass geo slotList st []).2) := by
  refine ⟨rfl, ?_, ?_⟩
  · exact (List.pairwise_map).mpr
      (isSortOutcome_strict _ _ hnd (sortDesc_isSortOutcome _))
  · intro out hout
    exact isSortOutcome_unique _ _ _ hnd hout (sortDesc_isSortOutcome _)

/-- Geometry for the sorting example: distance read off the negated z. -/
def c4Geo : GeomFns := { zeroGeo with len := fun v => -v.z }

/-- Three occupied world-locked slots at 1m, 5m and 3m from the head. -/
def threeSlotState : ManagerState :=
  initState true (fun i =>
    if i = 0 then slotAt (-1) WorldLocked
    else if i = 1 then slotAt (-5) WorldLocked
    else if i = 2 then slotAt (-3) WorldLocked
    else vacantSlot)

/-- C4 witness: the spec's example — windows at 1m, 5m, 3m sort back-to-front
as [5m, 3m, 1m], i.e. slots [1, 2, 0]; the amended theorem applies. -/
theorem c4_witness :
    (((sortPass c4Geo slotList threeSlotState []).2).map Prod.fst) = [1, 5, 3] ∧
    (((sortPass c4Geo slotList threeSlotState []).2).map Prod.fst).Nodup ∧
    (SortWindows c4Geo threeSlotState).sortedWindows = [1, 2, 0] ∧
    (∀ out, IsSortOutcome ((sortPass c4Geo slotList threeSlotState []).2) out →
      out = sortDesc ((sortPass c4Geo slotList threeSlotState []).2)) :=
  ⟨by decide, by decide, by decide,
   (c4_sorted_strict_desc c4Geo threeSlotState (by decide)).2.2⟩

/-- C5 (amended): for a hovered, non-frozen, NOT-minimized window, a rising
edge of the thumbstick button (latch clear, button now down) with no
hand-trigger held sets `isMinimized`, and the same `Update`'s content pass then
gives the quad the fixed minimized icon size whatever the prior scale; a second
frame with the button still held does not flip the flag again (exactly once
per edge).  (The "quad size becomes 0.1m" half of the original claim is
restricted to windows that were not already minimized — see the
counterexample.) -/
theorem c5_minimize_toggle (geo : GeomFns) (inp inp2 : FrameInput)
    (side side2 : Fin 2) (headPose headPose2 : Pose)
    (cps cps2 : Fin 2 → Pose) (hitPose hitPose2 : Pose)
    (sizePx sizePx2 : ℕ × ℕ) (lcp lcp2 : Vec3) (lcps lcps2 : Fin 2 → Pose)
    (lhp lhp2 : Pose) (w : Window) (lt : Latches)
    (surface bounds : ℕ × ℕ) (lhp3 : Pose)
    (hfro : w.isFrozen = false) (hmin : w.isMinimized = false)
    (hthumb : inp.thumbButton side = true)
    (hlatch : lt.isThumbstickPressed = false)
    (hht : inp.handTrigger side ≤ 3 / 4)
    (hht2 : inp.handTrigger (otherSide side) ≤ 3 / 4)
    (hvalid : w.IsValid = true)
    (hthumb2 : inp2.thumbButton side2 = true) :
    (HandleWindowInteractions geo inp side headPose cps hitPose sizePx lcp lcps
      lhp w lt).1.isMinimized = true ∧
    (UpdateWindow1 geo (some surface) bounds lhp3
      (HandleWindowInteractions geo inp side headPose cps hitPose sizePx lcp
        lcps lhp w lt).1).1.quad.sizeX = MinimizedIconSize ∧
    (UpdateWindow1 geo (some surface) bounds lhp3
      (HandleWindowInteractions geo inp side headPose cps hitPose sizePx lcp
        lcps lhp w lt).1).1.quad.sizeY = MinimizedIconSize ∧
    (HandleWindowInteractions geo inp2 side2 headPose2 cps2 hitPose2 sizePx2
      lcp2 lcps2 lhp2
      (HandleWindowInteractions geo inp side headPose cps hitPose sizePx lcp
        lcps lhp w lt).1
      (HandleWindowInteractions geo inp side headPose cps hitPose sizePx lcp
        lcps lhp w lt).2).1.isMinimized = true := by
  have hd : decide (inp.handTrigger side > (3 : ℚ) / 4) = false :=
    decide_eq_false (not_lt.mpr hht)
  have hr1 : (HandleWindowInteractions geo inp side headPose cps hitPose sizePx
      lcp lcps lhp w lt) =
      ({ w with isMinimized := true },
       { lt with isThumbstickPressed := true, isDraggingWindow := false,
                 isResizingWindow := false }) := by
    simp only [HandleWindowInteractions, hfro, hmin, hthumb, hlatch, hd,
      Bool.not_false, Bool.true_and, Bool.and_false, Bool.false_eq_true,
      if_false, ite_false, if_true, ite_true, Bool.not_true, Bool.and_true]
  rw [hr1]
  refine ⟨rfl, ?_, ?_, ?_⟩
  · have hval2 : (w.quad.isQuadType && w.hasCapture) = true := by
      simpa [Window.IsValid] using hvalid
    simp only [UpdateWindow1, Window.IsValid, hval2, Bool.not_true,
      Bool.false_eq_true, if_false, ite_false]
    repeat' split <;> simp_all
  · have hval2 : (w.quad.isQuadType && w.hasCapture) = true := by
      simpa [Window.IsValid] using hvalid
    simp only [UpdateWindow1, Window.IsValid, hval2, Bool.not_true,
      Bool.false_eq_true, if_false, ite_false]
    repeat' split <;> simp_all
  · simp only [HandleWindowInteractions, hfro, hthumb2, Bool.not_false,
      Bool.not_true, Bool.and_false, Bool.false_and, Bool.false_eq_true,
      if_false, ite_false, hwiInteract, Bool.and_true, Bool.true_and]
    split <;> rfl

/-- A frame with the thumbstick button down on both hands and nothing else. -/
def thumbInput : FrameInput := { noHandsInput with thumbButton := fun _ => true }

/-- C5 witness: the amended theorem applied to a fresh valid window with the
thumbstick pressed and all triggers released, over two frames. -/
theorem c5_witness :
    validWindow.isFrozen = false ∧ validWindow.isMinimized = false ∧
    thumbInput.thumbButton 0 = true ∧
    clearLatches.isThumbstickPressed = false ∧
    thumbInput.handTrigger 0 ≤ 3 / 4 ∧
    validWindow.IsValid = true ∧
    ((HandleWindowInteractions zeroGeo thumbInput 0 idPose (fun _ => idPose)
      idPose (100, 100) ⟨0, 0, 0⟩ (fun _ => idPose) idPose validWindow
      clearLatches).1.isMinimized = true ∧
    (UpdateWindow1 zeroGeo (some (200, 100)) (200, 100) idPose
      (HandleWindowInteractions zeroGeo thumbInput 0 idPose (fun _ => idPose)
        idPose (100, 100) ⟨0, 0, 0⟩ (fun _ => idPose) idPose validWindow
        clearLatches).1).1.quad.sizeX = MinimizedIconSize ∧
    (UpdateWindow1 zeroGeo (some (200, 100)) (200, 100) idPose
      (HandleWindowInteractions zeroGeo thumbInput 0 idPose (fun _ => idPose)
        idPose (100, 100) ⟨0, 0, 0⟩ (fun _ => idPose) idPose validWindow
        clearLatches).1).1.quad.sizeY = MinimizedIconSize ∧
    (HandleWindowInteractions zeroGeo thumbInput 0 idPose (fun _ => idPose)
      idPose (100, 100) ⟨0, 0, 0⟩ (fun _ => idPose) idPose
      (HandleWindowInteractions zeroGeo thumbInput 0 idPose (fun _ => idPose)
        idPose (100, 100) ⟨0, 0, 0⟩ (fun _ => idPose) idPose validWindow
        clearLatches).1
      (HandleWindowInteractions zeroGeo thumbInput 0 idPose (fun _ => idPose)
        idPose (100, 100) ⟨0, 0, 0⟩ (fun _ => idPose) idPose validWindow
        clearLatches).2).1.isMinimized = true) :=
  ⟨rfl, rfl, rfl, rfl, by decide, rfl,
   c5_minimize_toggle zeroGeo thumbInput thumbInput 0 0 idPose idPose
     (fun _ => idPose) (fun _ => idPose) idPose idPose (100, 100) (100, 100)
     ⟨0, 0, 0⟩ ⟨0, 0, 0⟩ (fun _ => idPose) (fun _ => idPose) idPose idPose
     validWindow clearLatches (200, 100) (200, 100) idPose
     rfl rfl rfl rfl (by decide) (by decide) rfl rfl⟩

/-- A valid window that is already minimized. -/
def minimizedWindow : Window := { validWindow with isMinimized := true }

/-- C5 counterexample: for a window that is ALREADY minimized, the same rising
edge with no hand-trigger held flips `isMinimized` to false, and the quad size
then becomes the scale-derived size (1 × 1/2 here), not the 0.1m icon size —
so "the quad size then becomes the fixed minimized icon size" is false as
stated for every window. -/
theorem c5_counterexample :
    (HandleWindowInteractions zeroGeo thumbInput 0 idPose (fun _ => idPose)
      idPose (100, 100) ⟨0, 0, 0⟩ (fun _ => idPose) idPose minimizedWindow
      clearLatches).1.isMinimized = false ∧
    (UpdateWindow1 zeroGeo (some (200, 100)) (200, 100) idPose
      (HandleWindowInteractions zeroGeo thumbInput 0 idPose (fun _ => idPose)
        idPose (100, 100) ⟨0, 0, 0⟩ (fun _ => idPose) idPose minimizedWindow
        clearLatches).1).1.quad.sizeX = 1 ∧
    (UpdateWindow1 zeroGeo (some (200, 100)) (200, 100) idPose
      (HandleWindowInteractions zeroGeo thumbInput 0 idPose (fun _ => idPose)
        idPose (100, 100) ⟨0, 0, 0⟩ (fun _ => idPose) idPose minimizedWindow
        clearLatches).1).1.quad.sizeY = 1 / 2 ∧
    (1 : ℚ) ≠ MinimizedIconSize := by
  decide

/-- Every slot index is visited by the slot loops. -/
theorem mem_slotList (s : Fin 4) : s ∈ slotList := by
  fin_cases s <;> decide

/-- C6: a newly opened (invalid window, non-empty slot) world-locked,
non-minimized slot whose shared pose is NaN has, after one `Update` with no
hand tracked, a non-NaN pose positioned one meter in front of the last head
pose (`lastHeadPose.apply (0,0,-1)`, -z being forward) and a gravity-aligned
(roll-free) orientation, `geom::alignToGravity`'s output being roll-free by
`rpy_zero_roll_rollFree`. -/
theorem c6_nan_pose_recovery (geo : GeomFns)
    (halign : ∀ q, RollFree (geo.alignQ q))
    (inp : FrameInput) (hno : ∀ sd, inp.aimValid sd = false)
    (st : ManagerState) (hm : st.mapped = true) (s : Fin 4)
    (hh : (st.shared s).handle ≠ 0)
    (hnan : (st.shared s).pose.isNan = true)
    (hwl : (st.shared s).placement = WorldLocked)
    (hmin : (st.shared s).isMinimized = false)
    (hinv : (st.windows s).IsValid = false) :
    ((Update geo inp st).windows s).quad.poseCenter.isNan = false ∧
    ((Update geo inp st).windows s).quad.poseCenter.val.position =
      Pose.apply st.lastHeadPose ⟨0, 0, -1⟩ ∧
    RollFree ((Update geo inp st).windows s).quad.poseCenter.val.orientation := by
  have hw1 : (SortWindows geo st).windows s =
      openedWindow geo (st.shared s) (st.windows s) st.lastHeadPose := by
    simp only [SortWindows]
    exact sortPass_windows_open geo s slotList st [] (mem_slotList s)
      (by decide) hinv hh
  have hpc : ((SortWindows geo st).windows s).quad.poseCenter =
      ⟨false, ⟨geo.alignQ (posMul ⟨idQuat, ⟨0, 0, -1⟩⟩ st.lastHeadPose).orientation,
               (posMul ⟨idQuat, ⟨0, 0, -1⟩⟩ st.lastHeadPose).position⟩⟩ := by
    rw [hw1]
    exact openedWindow_nan_world geo _ _ _ hh hnan hwl
  have hmn : ((SortWindows geo st).windows s).isMinimized = false := by
    rw [hw1, openedWindow_isMinimized geo _ _ _ hh]
    exact hmin
  have h2 := handleInteractions_noAim geo inp (SortWindows geo st) s hno
  simp only [Update, UpdateWithHit, hm, Bool.not_true, Bool.false_eq_true,
    if_false, ite_false, commitAll, UpdateWindows]
  rw [commitFold_quad]
  dsimp only
  rw [updateFold_poseCenter _ _ _ _ _ (h2.2.trans hmn)]
  rw [show (((HandleInteractions geo inp (SortWindows geo st)).1).windows
      s).quad.poseCenter = ((SortWindows geo st).windows s).quad.poseCenter
      from by rw [h2.1]]
  rw [hpc]
  exact ⟨rfl, rfl, halign _⟩

/-- An occupied world-locked slot freshly imported by the configurator: pose
written as NaN, minimized clear (see `syncState` in the ShellApp source). -/
def nanSlot : OverlayState := { occupiedSlot with pose := ⟨true, idPose⟩ }

/-- A manager seeing one freshly imported NaN-pose slot. -/
def nanSlotState : ManagerState :=
  initState true (fun i => if i = 0 then nanSlot else vacantSlot)

/-- The identity quaternion is roll-free. -/
theorem rollFree_idQuat : RollFree idQuat := by decide

/-- C6 witness: the theorem applied to the NaN-slot fixture; the default
spawn lands one meter in front of the (identity) last head pose. -/
theorem c6_witness :
    (∀ q, RollFree (zeroGeo.alignQ q)) ∧
    (∀ sd, noHandsInput.aimValid sd = false) ∧
    nanSlotState.mapped = true ∧
    (nanSlotState.shared 0).handle ≠ 0 ∧
    (nanSlotState.shared 0).pose.isNan = true ∧
    (nanSlotState.shared 0).placement = WorldLocked ∧
    (nanSlotState.shared 0).isMinimized = false ∧
    (nanSlotState.windows 0).IsValid = false ∧
    (((Update zeroGeo noHandsInput nanSlotState).windows
        0).quad.poseCenter.isNan = false ∧
     ((Update zeroGeo noHandsInput nanSlotState).windows
        0).quad.poseCenter.val.position =
       Pose.apply nanSlotState.lastHeadPose ⟨0, 0, -1⟩ ∧
     RollFree ((Update zeroGeo noHandsInput nanSlotState).windows
        0).quad.poseCenter.val.orientation) :=
  ⟨fun _ => rollFree_idQuat, fun _ => rfl, rfl, by decide, rfl, rfl, rfl,
   by decide,
   c6_nan_pose_recovery zeroGeo (fun _ => rollFree_idQuat) noHandsInput
     (fun _ => rfl) nanSlotState rfl 0 (by decide) rfl rfl rfl
     (by decide)⟩

/-- `openedWindow` sets the engine opacity to the shared byte over 100, on
every branch reached from a non-empty slot. -/
theorem openedWindow_opacity (geo : GeomFns) (state : OverlayState)
    (w : Window) (lhp : Pose) (h : state.handle ≠ 0) :
    (openedWindow geo state w lhp).opacity = opacityOf state.opacity := by
  unfold openedWindow
  by_cases hm : state.isMonitor <;>
    simp [hm, h] <;> split_ifs <;> simp

/-- C7: compositing a window with shared opacity 100 (internal 1, above the
0.9999 threshold) takes the plain-copy path with no compute dispatch; with
shared opacity 50 the compute path dispatches with the color-key sentinel
(-1,-1,-1) and alpha 1/2, and the transparency shader then writes alpha 1/2 at
every pixel while passing the color through. -/
theorem c7_opacity_paths (geo : GeomFns) (surface bounds : ℕ × ℕ) (lhp : Pose)
    (w : Window) (hv : w.IsValid = true) :
    opacityOf 100 = 1 ∧ opacityOf 50 = 1 / 2 ∧
    (UpdateWindow1 geo (some surface) bounds lhp
      { w with opacity := opacityOf 100 }).2 = some .copy ∧
    (UpdateWindow1 geo (some surface) bounds lhp
      { w with opacity := opacityOf 50 }).2 =
      some (.dispatch (-1, -1, -1) (opacityOf 50)
        (dispatchGroups surface.1) (dispatchGroups surface.2)) ∧
    (∀ rgb, (shaderPixel (-1, -1, -1) (opacityOf 50) rgb).2 = opacityOf 50) ∧
    (∀ rgb, (shaderPixel (-1, -1, -1) (opacityOf 50) rgb).1 = rgb) := by
  have hval2 : (w.quad.isQuadType && w.hasCapture) = true := by
    simpa [Window.IsValid] using hv
  have h100 : ((100 : ℕ) : ℚ) / 100 ≥ 9999 / 10000 := by norm_num
  have h50 : ¬(((50 : ℕ) : ℚ) / 100 ≥ 9999 / 10000) := by norm_num
  refine ⟨by norm_num [opacityOf], by norm_num [opacityOf], ?_, ?_, ?_, ?_⟩
  · simp only [UpdateWindow1, Window.IsValid, hval2, opacityOf, Bool.not_true,
      Bool.false_eq_true, if_false, ite_false]
    repeat' split <;> simp_all
  · simp only [UpdateWindow1, Window.IsValid, hval2, opacityOf, Bool.not_true,
      Bool.false_eq_true, if_false, ite_false]
    repeat' split <;> simp_all
  · intro rgb
    simp [shaderPixel]
  · intro rgb
    simp [shaderPixel]

/-- C7 witness: the theorem applied to a valid window and a 200×100 surface. -/
theorem c7_witness :
    validWindow.IsValid = true ∧
    (opacityOf 100 = 1 ∧ opacityOf 50 = 1 / 2 ∧
    (UpdateWindow1 zeroGeo (some (200, 100)) (200, 100) idPose
      { validWindow with opacity := opacityOf 100 }).2 = some .copy ∧
    (UpdateWindow1 zeroGeo (some (200, 100)) (200, 100) idPose
      { validWindow with opacity := opacityOf 50 }).2 =
      some (.dispatch (-1, -1, -1) (opacityOf 50)
        (dispatchGroups 200) (dispatchGroups 100)) ∧
    (∀ rgb, (shaderPixel (-1, -1, -1) (opacityOf 50) rgb).2 = opacityOf 50) ∧
    (∀ rgb, (shaderPixel (-1, -1, -1) (opacityOf 50) rgb).1 = rgb)) :=
  ⟨rfl, c7_opacity_paths zeroGeo (200, 100) (200, 100) idPose validWindow rfl⟩

/-- C8 counterexample: a 7×7 surface composited on the transparency path
dispatches `7 / 8 = 0` thread groups per dimension (the `std::ceil` in the
source is applied to an already-truncated integer division), so the dispatched
grid covers no pixel at all: `32 * 0 < 7`. -/
theorem c8_counterexample :
    (UpdateWindow1 zeroGeo (some (7, 7)) (7, 7) idPose
      { validWindow with opacity := 1 / 2 }).2 =
      some (.dispatch (-1, -1, -1) (1 / 2) 0 0) ∧
    ¬(7 ≤ threadGroupSize * dispatchGroups 7) := by
  decide

/-- C8 (amended): for every surface dimension of at least 8 pixels, the
dispatched thread groups times the 32-thread group size cover the dimension;
below 8 pixels zero groups are dispatched and nothing is covered. -/
theorem c8_dispatch_covers (d : ℕ) (h : 8 ≤ d) :
    d ≤ threadGroupSize * dispatchGroups d := by
  simp only [threadGroupSize, dispatchGroups]
  omega

/-- C8 witness: the amended theorem at the smallest covered dimension. -/
theorem c8_witness : 8 ≤ 8 ∧ 8 ≤ threadGroupSize * dispatchGroups 8 :=
  ⟨by decide, c8_dispatch_covers 8 (by decide)⟩

/-- A manager seeing one occupied slot whose opacity byte is 255. -/
def c9State : ManagerState :=
  initState true
    (fun i => if i = 0 then { occupiedSlot with opacity := 255 } else vacantSlot)

/-- C9 counterexample: opening a slot whose opacity byte is 255 gives the
window the internal opacity `255 / 100 = 2.55`, outside `[0, 1]` — the code
divides the byte by 100 with no clamp, so the claim fails for byte values
above 100. -/
theorem c9_counterexample :
    ((OpenWindow zeroGeo c9State 0).windows 0).opacity = 51 / 20 ∧
    ¬(((OpenWindow zeroGeo c9State 0).windows 0).opacity ≤ 1) := by
  decide

/-- C9 (amended): for every shared opacity byte AT MOST 100 (the range the
configurator writes), both `OpenWindow` and `SyncWindow` leave the window's
internal opacity in `[0, 1]`. -/
theorem c9_opacity_range (geo : GeomFns) (st : ManagerState) (s : Fin 4)
    (hb : (st.shared s).opacity ≤ 100) (hh : (st.shared s).handle ≠ 0) :
    (0 ≤ ((OpenWindow geo st s).windows s).opacity ∧
     ((OpenWindow geo st s).windows s).opacity ≤ 1) ∧
    (0 ≤ ((SyncWindow st s).windows s).opacity ∧
     ((SyncWindow st s).windows s).opacity ≤ 1) := by
  have hop : ∀ b : ℕ, b ≤ 100 → 0 ≤ opacityOf b ∧ opacityOf b ≤ 1 := by
    intro b hb2
    unfold opacityOf
    constructor
    · exact div_nonneg (Nat.cast_nonneg b) (by norm_num)
    · rw [div_le_one (by norm_num : (0 : ℚ) < 100)]
      exact_mod_cast hb2
  constructor
  · have h1 : ((OpenWindow geo st s).windows s).opacity =
        opacityOf (st.shared s).opacity := by
      simp only [OpenWindow, setWindow_windows_self]
      exact openedWindow_opacity geo _ _ _ hh
    rw [h1]
    exact hop _ hb
  · have h2 : ((SyncWindow st s).windows s).opacity =
        opacityOf (st.shared s).opacity := by
      simp only [SyncWindow, setWindow_windows_self]
      rfl
    rw [h2]
    exact hop _ hb

/-- C9 witness: the amended theorem at an occupied slot with opacity 100. -/
theorem c9_witness :
    (oneSlotState.shared 0).opacity ≤ 100 ∧
    (oneSlotState.shared 0).handle ≠ 0 ∧
    ((0 ≤ ((OpenWindow zeroGeo oneSlotState 0).windows 0).opacity ∧
      ((OpenWindow zeroGeo oneSlotState 0).windows 0).opacity ≤ 1) ∧
     (0 ≤ ((SyncWindow oneSlotState 0).windows 0).opacity ∧
      ((SyncWindow oneSlotState 0).windows 0).opacity ≤ 1)) :=
  ⟨by decide, by decide,
   c9_opacity_range zeroGeo oneSlotState 0 (by decide) (by decide)⟩

/-- C10: in every manager state, the layer list emitted by `GetLayers` has no
cursor layer anywhere but the last position, and its last element is the
cursor layer exactly when `HasFocus` reports true (some window was hit this
frame) — the cursor quad is appended if and only if the engine has focus, and
then as the last layer. -/
theorem c10_cursor_iff_focus (st : ManagerState) :
    ((GetLayers st).1.dropLast.all fun l => !l.isCursor) = true ∧
    (((GetLayers st).1.getLast?.map Layer.isCursor).getD false) = HasFocus st := by
  have hall : ∀ l ∈ st.sortedWindows.map
      (fun i => Layer.window i (st.windows i).quad), l.isCursor = false := by
    intro l hl
    rcases List.mem_map.mp hl with ⟨j, _, rfl⟩
    rfl
  unfold GetLayers HasFocus
  cases hc : st.cursorPose with
  | none =>
    dsimp only
    constructor
    · rw [List.all_eq_true]
      intro l hl
      rw [hall l (List.dropLast_subset _ hl), Bool.not_false]
    · cases hgl : (st.sortedWindows.map
          (fun i => Layer.window i (st.windows i).quad)).getLast? with
      | none => simp [hgl]
      | some a =>
        have ha := hall a (List.mem_of_getLast?_eq_some hgl)
        simp [hgl, ha]
  | some cp =>
    dsimp only
    constructor
    · rw [List.dropLast_concat, List.all_eq_true]
      intro l hl
      rw [hall l hl, Bool.not_false]
    · rw [List.getLast?_concat]
      rfl

end ClaimEval

end OVRlay
